import Mathlib

/-!
# Verification of the Pin e-paper firmware core

Shallow embedding of the Pin firmware (MePride/pin) in Lean 4, covering:

* the FPC-A005 panel driver's nibble-packed framebuffer
  (`firmware/components/fpc_a005/fpc_a005.c`),
* the canvas engine: scene model, rasterization, JSON import/export
  (`firmware/components/pin_canvas/pin_canvas.c`),
* the plugin runtime's worker loop and tracking allocator
  (`firmware/main/pin_plugin.c`),
* the OTA manifest parsing and version comparison (`firmware/main/pin_ota.c`),
* the Wi-Fi access-point configuration (`firmware/main/pin_wifi.c`).

Machine integers are modelled as `Nat`/`Int` with explicit truncation where
the C code can overflow; byte buffers are modelled as functions `Nat → Nat`
from byte index to byte value.
-/

set_option maxHeartbeats 1000000

namespace Pin

/-! ## FPC-A005 panel driver (fpc_a005.c)

`FPC_A005_WIDTH = 600`, `FPC_A005_HEIGHT = 448`,
`FPC_A005_BUFFER_SIZE = 600*448/2` bytes, two 4-bit pixels per byte,
high nibble = even pixel index. -/

def FPC_A005_WIDTH : Nat := 600

def FPC_A005_HEIGHT : Nat := 448

def FPC_A005_BUFFER_SIZE : Nat := FPC_A005_WIDTH * FPC_A005_HEIGHT / 2

/-- Panel colors, 4-bit codes 0x0-0x6 (`fpc_a005_color_t`). -/
def FPC_A005_COLOR_BLACK : Nat := 0x00
def FPC_A005_COLOR_WHITE : Nat := 0x01
def FPC_A005_COLOR_RED : Nat := 0x02
def FPC_A005_COLOR_YELLOW : Nat := 0x03
def FPC_A005_COLOR_BLUE : Nat := 0x04
def FPC_A005_COLOR_GREEN : Nat := 0x05
def FPC_A005_COLOR_ORANGE : Nat := 0x06

/-- The driver framebuffer: byte index ↦ byte value (a `uint8_t`, `< 256`). -/
def Framebuffer : Type := Nat → Nat

/-- `fpc_a005_init` fills the framebuffer with `0x11` (white). -/
def fpc_a005_init_framebuffer : Framebuffer := fun _ => 0x11

/-- A framebuffer whose bytes are genuine `uint8_t` values. -/
def FbWf (fb : Framebuffer) : Prop := ∀ i, fb i < 256

/-- `fpc_a005_set_pixel_in_buffer` (fpc_a005.c:298-312): bounds-checked
nibble write.  The `% 256` models the store into the `uint8_t` array cell. -/
def fpc_a005_set_pixel_in_buffer (fb : Framebuffer) (x y color : Nat) :
    Framebuffer :=
  if x ≥ FPC_A005_WIDTH ∨ y ≥ FPC_A005_HEIGHT then fb
  else
    let pixel_index := y * FPC_A005_WIDTH + x
    let byte_index := pixel_index / 2
    fun i =>
      if i = byte_index then
        if pixel_index % 2 = 0 then ((fb byte_index &&& 0x0F) ||| (color <<< 4)) % 256
        else ((fb byte_index &&& 0xF0) ||| (color &&& 0x0F)) % 256
      else fb i

/-- `fpc_a005_get_pixel_from_buffer` (fpc_a005.c:314-328): bounds-checked
nibble read; out of bounds returns `FPC_A005_COLOR_WHITE`. -/
def fpc_a005_get_pixel_from_buffer (fb : Framebuffer) (x y : Nat) : Nat :=
  if x ≥ FPC_A005_WIDTH ∨ y ≥ FPC_A005_HEIGHT then FPC_A005_COLOR_WHITE
  else
    let pixel_index := y * FPC_A005_WIDTH + x
    let byte_index := pixel_index / 2
    if pixel_index % 2 = 0 then (fb byte_index >>> 4) &&& 0x0F
    else fb byte_index &&& 0x0F

/-- `fpc_a005_clear` (fpc_a005.c:284-296): every byte becomes
`(color << 4) | color` (stored into `uint8_t`). -/
def fpc_a005_clear (color : Nat) : Framebuffer :=
  fun _ => ((color <<< 4) ||| color) % 256

/-- `fpc_a005_refresh` (fpc_a005.c:466-503) streams the framebuffer bytes
after `Data Start Transmission 1`; byte `i` of the stream is framebuffer
byte `i`, for `i < FPC_A005_BUFFER_SIZE`. -/
def fpc_a005_refresh_streamed_byte (fb : Framebuffer) (i : Nat) : Nat := fb i

/-! ### Nibble arithmetic facts (checked over all byte/color values) -/

set_option maxRecDepth 8000

/-- `set_pixel_in_buffer`, read at one byte, with constants as numerals. -/
theorem set_pixel_in_buffer_apply (fb : Framebuffer) (x y c i : Nat) :
    fpc_a005_set_pixel_in_buffer fb x y c i =
      if x ≥ 600 ∨ y ≥ 448 then fb i
      else if i = (y * 600 + x) / 2 then
        if (y * 600 + x) % 2 = 0 then
          ((fb ((y * 600 + x) / 2) &&& 0x0F) ||| (c <<< 4)) % 256
        else ((fb ((y * 600 + x) / 2) &&& 0xF0) ||| (c &&& 0x0F)) % 256
      else fb i := by
  show (if x ≥ 600 ∨ y ≥ 448 then fb
    else fun j =>
      if j = (y * 600 + x) / 2 then
        if (y * 600 + x) % 2 = 0 then
          ((fb ((y * 600 + x) / 2) &&& 0x0F) ||| (c <<< 4)) % 256
        else ((fb ((y * 600 + x) / 2) &&& 0xF0) ||| (c &&& 0x0F)) % 256
      else fb j) i = _
  by_cases h : x ≥ 600 ∨ y ≥ 448
  · rw [if_pos h, if_pos h]
  · rw [if_neg h, if_neg h]

/-- `get_pixel_from_buffer` with its constants unfolded to numerals. -/
theorem get_pixel_from_buffer_eq (fb : Framebuffer) (x y : Nat) :
    fpc_a005_get_pixel_from_buffer fb x y =
      if x ≥ 600 ∨ y ≥ 448 then 1
      else if (y * 600 + x) % 2 = 0 then (fb ((y * 600 + x) / 2) >>> 4) &&& 0x0F
      else fb ((y * 600 + x) / 2) &&& 0x0F := rfl

/-- Reading pixel `(0,0)` of any framebuffer yields the high nibble of
byte 0. -/
theorem get_pixel_origin (fb : Framebuffer) :
    fpc_a005_get_pixel_from_buffer fb 0 0 = (fb 0 >>> 4) &&& 0x0F := by
  rw [get_pixel_from_buffer_eq]
  norm_num

theorem nibble_hi_write_read :
    ∀ b < 256, ∀ c < 16, (((b &&& 0x0F) ||| (c <<< 4)) % 256) >>> 4 &&& 0x0F = c := by
  decide

theorem nibble_lo_write_read :
    ∀ b < 256, ∀ c < 16, (((b &&& 0xF0) ||| (c &&& 0x0F)) % 256) &&& 0x0F = c := by
  decide

theorem nibble_hi_write_keeps_lo :
    ∀ b < 256, ∀ c < 16, (((b &&& 0x0F) ||| (c <<< 4)) % 256) &&& 0x0F = b &&& 0x0F := by
  decide

theorem nibble_lo_write_keeps_hi :
    ∀ b < 256, ∀ c < 16, (((b &&& 0xF0) ||| (c &&& 0x0F)) % 256) >>> 4 &&& 0x0F = b >>> 4 &&& 0x0F := by
  decide

/-- Writing a pixel keeps every framebuffer byte a `uint8_t`. -/
theorem set_pixel_in_buffer_wf (fb : Framebuffer) (hfb : FbWf fb) (x y c : Nat) :
    FbWf (fpc_a005_set_pixel_in_buffer fb x y c) := by
  intro i
  unfold fpc_a005_set_pixel_in_buffer
  split
  · exact hfb i
  · dsimp only
    split
    · split <;> exact Nat.mod_lt _ (by norm_num)
    · exact hfb i

/-- Full pixel-level characterization of `set_pixel` followed by `get_pixel`:
the written pixel reads back (masked to a nibble), every other pixel is
untouched, and out-of-range writes change nothing. -/
theorem get_pixel_set_pixel (fb : Framebuffer) (hfb : FbWf fb)
    (x y c x' y' : Nat) (hc : c < 16) :
    fpc_a005_get_pixel_from_buffer (fpc_a005_set_pixel_in_buffer fb x y c) x' y' =
      if x' = x ∧ y' = y ∧ x < FPC_A005_WIDTH ∧ y < FPC_A005_HEIGHT then c
      else fpc_a005_get_pixel_from_buffer fb x' y' := by
  show _ = if x' = x ∧ y' = y ∧ x < 600 ∧ y < 448 then c
    else fpc_a005_get_pixel_from_buffer fb x' y'
  rw [get_pixel_from_buffer_eq, get_pixel_from_buffer_eq fb]
  by_cases hget : x' ≥ 600 ∨ y' ≥ 448
  · rw [if_pos hget, if_pos hget, if_neg (by omega)]
  · rw [if_neg hget, if_neg hget]
    push_neg at hget
    obtain ⟨hx', hy'⟩ := hget
    rw [set_pixel_in_buffer_apply]
    by_cases hset : x ≥ 600 ∨ y ≥ 448
    · rw [if_pos hset,
        if_neg (show ¬(x' = x ∧ y' = y ∧ x < 600 ∧ y < 448) by omega)]
    · rw [if_neg hset]
      push_neg at hset
      obtain ⟨hx, hy⟩ := hset
      by_cases hii : y' * 600 + x' = y * 600 + x
      · have hxy : x' = x ∧ y' = y := by omega
        have hcond : x' = x ∧ y' = y ∧ x < 600 ∧ y < 448 := ⟨hxy.1, hxy.2, hx, hy⟩
        rw [if_pos hcond, hii, if_pos rfl]
        by_cases hpar : (y * 600 + x) % 2 = 0
        · rw [if_pos hpar, if_pos hpar]
          exact nibble_hi_write_read _ (hfb _) _ hc
        · rw [if_neg hpar, if_neg hpar]
          exact nibble_lo_write_read _ (hfb _) _ hc
      · rw [if_neg (show ¬(x' = x ∧ y' = y ∧ x < 600 ∧ y < 448) by omega)]
        by_cases hbb : (y' * 600 + x') / 2 = (y * 600 + x) / 2
        · -- same byte, opposite nibble
          rw [hbb, if_pos rfl]
          by_cases hpar : (y * 600 + x) % 2 = 0
          · have hpar' : ¬((y' * 600 + x') % 2 = 0) := by omega
            rw [if_pos hpar, if_neg hpar', if_neg hpar']
            exact nibble_hi_write_keeps_lo _ (hfb _) _ hc
          · have hpar' : (y' * 600 + x') % 2 = 0 := by omega
            rw [if_neg hpar, if_pos hpar', if_pos hpar']
            exact nibble_lo_write_keeps_hi _ (hfb _) _ hc
        · rw [if_neg hbb]

/-- The freshly initialized framebuffer is made of `uint8_t` bytes. -/
theorem init_framebuffer_wf : FbWf fpc_a005_init_framebuffer := by
  intro i
  norm_num [fpc_a005_init_framebuffer]

/-- The S1 framebuffer: `init` → `set_pixel(0,0,Red)` → `set_pixel(1,0,Blue)`. -/
def s1_framebuffer : Framebuffer :=
  fpc_a005_set_pixel_in_buffer
    (fpc_a005_set_pixel_in_buffer fpc_a005_init_framebuffer 0 0 FPC_A005_COLOR_RED)
    1 0 FPC_A005_COLOR_BLUE

/-- C1: the claimed equivalence `get_pixel(set_pixel) = c ↔ in-bounds` is
refuted at `(x,y) = (600,0)`, `c = White`: the write is out of bounds, yet
`get_pixel` returns `White = c` (its out-of-bounds fallback). -/
theorem claim_C1_counterexample :
    fpc_a005_get_pixel_from_buffer
        (fpc_a005_set_pixel_in_buffer fpc_a005_init_framebuffer 600 0
          FPC_A005_COLOR_WHITE) 600 0 = FPC_A005_COLOR_WHITE ∧
      ¬(600 < FPC_A005_WIDTH ∧ 0 < FPC_A005_HEIGHT) := by
  constructor
  · rfl
  · decide

/-- C1 (amended): after `set_pixel(x,y,c)`, `get_pixel(x,y)` returns `c` iff
`(x,y)` is in bounds **or** `c = White` (out of bounds `get_pixel` returns its
`White` fallback); an out-of-bounds `set_pixel` leaves every framebuffer byte
unchanged, and `get_pixel` never modifies the framebuffer.  After
`set_pixel(0,0,Red)`, `set_pixel(1,0,Blue)` on the initial framebuffer, byte 0
is `0x24`, `get_pixel(0,0) = Red` and `get_pixel(1,0) = Blue`. -/
theorem claim_C1_set_get (fb : Framebuffer) (hfb : FbWf fb) (x y c : Nat)
    (hc : c ≤ 6) :
    (fpc_a005_get_pixel_from_buffer (fpc_a005_set_pixel_in_buffer fb x y c) x y = c ↔
      (x < FPC_A005_WIDTH ∧ y < FPC_A005_HEIGHT) ∨ c = FPC_A005_COLOR_WHITE) ∧
    (¬(x < FPC_A005_WIDTH ∧ y < FPC_A005_HEIGHT) →
      ∀ i, fpc_a005_set_pixel_in_buffer fb x y c i = fb i) ∧
    s1_framebuffer 0 = 0x24 ∧
    fpc_a005_get_pixel_from_buffer s1_framebuffer 0 0 = FPC_A005_COLOR_RED ∧
    fpc_a005_get_pixel_from_buffer s1_framebuffer 1 0 = FPC_A005_COLOR_BLUE := by
  refine ⟨?_, ?_, by decide, by decide, by decide⟩
  · show _ ↔ (x < 600 ∧ y < 448) ∨ c = 1
    rw [get_pixel_set_pixel fb hfb x y c x y (by omega)]
    by_cases hin : x < 600 ∧ y < 448
    · rw [if_pos ⟨rfl, rfl, hin.1, hin.2⟩]
      simp [hin]
    · rw [if_neg (by tauto), get_pixel_from_buffer_eq, if_pos (by omega)]
      constructor
      · intro h1
        exact Or.inr h1.symm
      · rintro (h | h)
        · exact absurd h hin
        · exact h.symm
  · intro hout i
    have hout' : ¬(x < 600 ∧ y < 448) := hout
    rw [set_pixel_in_buffer_apply, if_pos (by omega)]

/-- Witness for `claim_C1_set_get` at `fb = init`, `(x,y) = (0,0)`, `c = Red`. -/
theorem claim_C1_set_get_witness :
    FbWf fpc_a005_init_framebuffer ∧ FPC_A005_COLOR_RED ≤ 6 ∧
      (fpc_a005_get_pixel_from_buffer
          (fpc_a005_set_pixel_in_buffer fpc_a005_init_framebuffer 0 0
            FPC_A005_COLOR_RED) 0 0 = FPC_A005_COLOR_RED ↔
        (0 < FPC_A005_WIDTH ∧ 0 < FPC_A005_HEIGHT) ∨
          FPC_A005_COLOR_RED = FPC_A005_COLOR_WHITE) :=
  ⟨init_framebuffer_wf, by decide,
    (claim_C1_set_get fpc_a005_init_framebuffer init_framebuffer_wf 0 0
      FPC_A005_COLOR_RED (by decide)).1⟩

/-! ### `fpc_a005_draw_bitmap` (fpc_a005.c:442-464)

The source bitmap is interpreted as nibble-packed: pixel `(px,py)` of the
bitmap is the high (even pixel index) or low nibble of byte
`(py*w+px)/2`. -/

/-- The per-pixel color extraction of `fpc_a005_draw_bitmap`'s loop body. -/
def fpc_a005_bitmap_color (bitmap : Nat → Nat) (w py px : Nat) : Nat :=
  if (py * w + px) % 2 = 0 then (bitmap ((py * w + px) / 2) >>> 4) &&& 0x0F
  else bitmap ((py * w + px) / 2) &&& 0x0F

theorem bitmap_color_lt (bitmap : Nat → Nat) (w py px : Nat) :
    fpc_a005_bitmap_color bitmap w py px < 16 := by
  unfold fpc_a005_bitmap_color
  split <;> exact Nat.lt_succ_of_le Nat.and_le_right

/-- `fpc_a005_draw_bitmap`: the double loop `for py … for px …` with the C
loop conditions `py < h && (y+py) < HEIGHT`, `px < w && (x+px) < WIDTH`
(the conjunct stops the loop, hence `takeWhile`). -/
def fpc_a005_draw_bitmap (fb : Framebuffer) (x y w h : Nat)
    (bitmap : Nat → Nat) : Framebuffer :=
  ((List.range h).takeWhile (fun py => decide (y + py < FPC_A005_HEIGHT))).foldl
    (fun fb1 py =>
      ((List.range w).takeWhile (fun px => decide (x + px < FPC_A005_WIDTH))).foldl
        (fun fb2 px =>
          fpc_a005_set_pixel_in_buffer fb2 (x + px) (y + py)
            (fpc_a005_bitmap_color bitmap w py px))
        fb1)
    fb

theorem foldl_framebuffer_wf {α : Type} (f : Framebuffer → α → Framebuffer)
    (hf : ∀ fb a, FbWf fb → FbWf (f fb a)) :
    ∀ (l : List α) (fb : Framebuffer), FbWf fb → FbWf (l.foldl f fb) := by
  intro l
  induction l with
  | nil => exact fun fb h => h
  | cons a t ih => exact fun fb h => ih _ (hf fb a h)

/-- Reading a pixel after a row of `set_pixel` writes at row `py`. -/
theorem get_pixel_row_foldl (col : Nat → Nat) (hcol : ∀ p, col p < 16) (py : Nat) :
    ∀ (pxs : List Nat) (fb : Framebuffer), FbWf fb → ∀ (x' y' : Nat),
      fpc_a005_get_pixel_from_buffer
          (pxs.foldl
            (fun b px => fpc_a005_set_pixel_in_buffer b px py (col px)) fb) x' y' =
        if y' = py ∧ x' ∈ pxs ∧ x' < 600 ∧ py < 448 then col x'
        else fpc_a005_get_pixel_from_buffer fb x' y' := by
  intro pxs
  induction pxs with
  | nil => intro fb hfb x' y'; simp
  | cons p ps ih =>
    intro fb hfb x' y'
    rw [List.foldl_cons, ih _ (set_pixel_in_buffer_wf fb hfb p py (col p)) x' y']
    by_cases h1 : y' = py ∧ x' ∈ ps ∧ x' < 600 ∧ py < 448
    · rw [if_pos h1, if_pos ⟨h1.1, List.mem_cons_of_mem _ h1.2.1, h1.2.2⟩]
    · rw [if_neg h1, get_pixel_set_pixel _ hfb _ _ _ _ _ (hcol p)]
      by_cases h2 : x' = p ∧ y' = py ∧ p < FPC_A005_WIDTH ∧ py < FPC_A005_HEIGHT
      · obtain ⟨hxp, hyp, hpw, hph⟩ := h2
        have hpw' : p < 600 := hpw
        have hph' : py < 448 := hph
        rw [if_pos ⟨hxp, hyp, hpw, hph⟩,
          if_pos ⟨hyp, by rw [hxp]; exact List.mem_cons_self p ps, by omega, hph'⟩, hxp]
      · rw [if_neg h2, if_neg ?_]
        rintro ⟨hy, hmem, hx, hpy⟩
        rcases List.mem_cons.mp hmem with rfl | hmem'
        · exact h2 ⟨rfl, hy, hx, hpy⟩
        · exact h1 ⟨hy, hmem', hx, hpy⟩

/-- Reading a pixel after drawing full rows `pys`, each row covering
`px ∈ [0,600)`, with colors taken from a nibble-packed `bitmap` of width
600. -/
theorem get_pixel_bitmap_rows (bitmap : Nat → Nat) :
    ∀ (pys : List Nat) (fb : Framebuffer), FbWf fb → ∀ (x' y' : Nat),
      fpc_a005_get_pixel_from_buffer
          (pys.foldl
            (fun b py =>
              (List.range 600).foldl
                (fun b2 px =>
                  fpc_a005_set_pixel_in_buffer b2 px py
                    (fpc_a005_bitmap_color bitmap 600 py px)) b) fb) x' y' =
        if y' ∈ pys ∧ x' < 600 ∧ y' < 448 then
          fpc_a005_bitmap_color bitmap 600 y' x'
        else fpc_a005_get_pixel_from_buffer fb x' y' := by
  intro pys
  induction pys with
  | nil => intro fb hfb x' y'; simp
  | cons p ps ih =>
    intro fb hfb x' y'
    have hrowwf : FbWf ((List.range 600).foldl
        (fun b2 px => fpc_a005_set_pixel_in_buffer b2 px p
          (fpc_a005_bitmap_color bitmap 600 p px)) fb) :=
      foldl_framebuffer_wf _ (fun b a hb => set_pixel_in_buffer_wf b hb _ _ _) _ fb hfb
    rw [List.foldl_cons, ih _ hrowwf x' y']
    by_cases h1 : y' ∈ ps ∧ x' < 600 ∧ y' < 448
    · rw [if_pos h1, if_pos ⟨List.mem_cons_of_mem _ h1.1, h1.2⟩]
    · rw [if_neg h1,
        get_pixel_row_foldl (fpc_a005_bitmap_color bitmap 600 p)
          (fun q => bitmap_color_lt bitmap 600 p q) p (List.range 600) fb hfb x' y']
      by_cases h2 : y' = p ∧ x' ∈ List.range 600 ∧ x' < 600 ∧ p < 448
      · obtain ⟨hyp, _, hx, hp⟩ := h2
        rw [if_pos ⟨hyp, List.mem_range.mpr hx, hx, hp⟩,
          if_pos ⟨by rw [hyp]; exact List.mem_cons_self p ps, hx, by omega⟩, hyp]
      · rw [if_neg h2, if_neg ?_]
        rintro ⟨hmem, hx, hy⟩
        rcases List.mem_cons.mp hmem with rfl | hmem'
        · exact h2 ⟨rfl, List.mem_range.mpr hx, hx, hy⟩
        · exact h1 ⟨hmem', hx, hy⟩

/-- `draw_bitmap` over the whole panel: pixel `(x',y')` of the framebuffer
becomes the nibble-packed bitmap's pixel at index `y'*600+x'`. -/
theorem get_pixel_draw_bitmap_full (fb : Framebuffer) (hfb : FbWf fb)
    (bitmap : Nat → Nat) (x' y' : Nat) :
    fpc_a005_get_pixel_from_buffer
        (fpc_a005_draw_bitmap fb 0 0 600 448 bitmap) x' y' =
      if x' < 600 ∧ y' < 448 then fpc_a005_bitmap_color bitmap 600 y' x'
      else fpc_a005_get_pixel_from_buffer fb x' y' := by
  have h448 : (List.range 448).takeWhile
      (fun py => decide (py < FPC_A005_HEIGHT)) = List.range 448 := by
    rw [List.takeWhile_eq_self_iff]
    intro a ha
    simp only [List.mem_range] at ha
    simp only [FPC_A005_HEIGHT, decide_eq_true_eq]
    omega
  have h600 : (List.range 600).takeWhile
      (fun px => decide (px < FPC_A005_WIDTH)) = List.range 600 := by
    rw [List.takeWhile_eq_self_iff]
    intro a ha
    simp only [List.mem_range] at ha
    simp only [FPC_A005_WIDTH, decide_eq_true_eq]
    omega
  unfold fpc_a005_draw_bitmap
  simp only [Nat.zero_add]
  simp only [h448, h600]
  rw [get_pixel_bitmap_rows bitmap (List.range 448) fb hfb x' y']
  by_cases h : y' ∈ List.range 448 ∧ x' < 600 ∧ y' < 448
  · rw [if_pos h, if_pos ⟨h.2.1, h.2.2⟩]
  · rw [if_neg h, if_neg ?_]
    rintro ⟨hx, hy⟩
    exact h ⟨List.mem_range.mpr hy, hx, hy⟩

/-! ## Canvas engine (pin_canvas.c, pin_canvas.h)

The render buffer of `pin_canvas_render` is `PIN_CANVAS_WIDTH *
PIN_CANVAS_HEIGHT` bytes, **one byte per pixel** (see `pin_canvas_init`'s
allocation and `draw_pixel`).  Colors are the 7 values of
`pin_canvas_color_t`, numerically identical to the driver's. -/

def PIN_CANVAS_WIDTH : Nat := 600

def PIN_CANVAS_HEIGHT : Nat := 448

def PIN_CANVAS_MAX_ELEMENTS : Nat := 50

def PIN_CANVAS_MAX_TEXT_LEN : Nat := 512

def PIN_CANVAS_MAX_IMAGE_SIZE : Nat := 64 * 1024

def PIN_CANVAS_COLOR_BLACK : Nat := 0
def PIN_CANVAS_COLOR_WHITE : Nat := 1
def PIN_CANVAS_COLOR_RED : Nat := 2
def PIN_CANVAS_COLOR_YELLOW : Nat := 3
def PIN_CANVAS_COLOR_BLUE : Nat := 4
def PIN_CANVAS_COLOR_GREEN : Nat := 5
def PIN_CANVAS_COLOR_ORANGE : Nat := 6

/-- `pin_canvas_element_type_t` values (a C enum is an `int`; imported JSON
can store any integer here, so the model keeps the raw value). -/
def PIN_CANVAS_ELEMENT_TEXT : Int := 0
def PIN_CANVAS_ELEMENT_IMAGE : Int := 1
def PIN_CANVAS_ELEMENT_RECT : Int := 2
def PIN_CANVAS_ELEMENT_LINE : Int := 3
def PIN_CANVAS_ELEMENT_CIRCLE : Int := 4

/-- C `int` division truncates toward zero, unlike Lean's `Int./`. -/
def c_idiv (a b : Int) : Int := Int.tdiv a b

/-- Conversion of a C `int` value to `uint16_t` (reduction mod 2^16). -/
def uint16_wrap (v : Int) : Nat := (v % 65536).toNat

/-- Conversion of a C `int` value to `int16_t` (two's complement wrap). -/
def int16_wrap (v : Int) : Int := (v + 32768) % 65536 - 32768

/-- Conversion of a C `int` value to `uint8_t` (reduction mod 2^8). -/
def uint8_wrap (v : Int) : Nat := (v % 256).toNat

/-- `pin_canvas_rect_t`: `position` is a pair of `int16_t`, `size` a pair
of `uint16_t`. -/
structure pin_canvas_rect_t where
  x : Int
  y : Int
  width : Nat
  height : Nat
  deriving Repr, DecidableEq

/-- `pin_canvas_text_props_t` (`text` holds at most 511 characters;
`font_size`, `color` and `align` are C enums, i.e. `int`s). -/
structure pin_canvas_text_props_t where
  text : List Char
  font_size : Int
  color : Int
  align : Int
  bold : Bool
  italic : Bool
  deriving Repr, DecidableEq

/-- `pin_canvas_image_props_t` (`format` is a C enum, `opacity` a
`uint8_t`). -/
structure pin_canvas_image_props_t where
  image_id : List Char
  format : Int
  maintain_aspect_ratio : Bool
  opacity : Nat
  deriving Repr, DecidableEq

/-- `pin_canvas_shape_props_t` (colors are C enums, `border_width` a
`uint8_t`). -/
structure pin_canvas_shape_props_t where
  fill_color : Int
  border_color : Int
  border_width : Nat
  filled : Bool
  deriving Repr, DecidableEq

/-- The element `props` union, tagged by which group of fields was last
written (the C union's other bytes are never read by well-formed code
paths: `canvas_to_json`, `json_to_canvas` and the renderers all select the
group matching `type`). -/
inductive pin_canvas_props_t where
  | text (p : pin_canvas_text_props_t)
  | image (p : pin_canvas_image_props_t)
  | shape (p : pin_canvas_shape_props_t)
  deriving Repr, DecidableEq

/-- `pin_canvas_element_t` (`type` is a C enum, `z_index` a `uint8_t`). -/
structure pin_canvas_element_t where
  id : List Char
  type : Int
  bounds : pin_canvas_rect_t
  z_index : Nat
  visible : Bool
  props : pin_canvas_props_t
  deriving Repr, DecidableEq

/-- `pin_canvas_t`; `element_count` is the length of `elements`
(`background_color` is a C enum, the times are `uint32_t`). -/
structure pin_canvas_t where
  id : List Char
  name : List Char
  background_color : Int
  created_time : Nat
  modified_time : Nat
  elements : List pin_canvas_element_t
  deriving Repr, DecidableEq

/-- The canvas render buffer: one byte per pixel, index `y*600+x`. -/
def RenderBuffer : Type := Nat → Nat

/-- `draw_pixel` (pin_canvas.c:856-860): clipped byte store. -/
def draw_pixel (buf : RenderBuffer) (x y : Int) (color : Int) : RenderBuffer :=
  if 0 ≤ x ∧ x < 600 ∧ 0 ≤ y ∧ y < 448 then
    fun i => if i = (y * 600 + x).toNat then uint8_wrap color else buf i
  else buf

/-- One iteration step of Bresenham's `draw_line` loop
(pin_canvas.c:862-884); `fuel` bounds the loop (`|dx| + |dy| + 1`
iterations always suffice: every iteration moves `x0` or `y0` one step
toward the target or hits it). -/
def draw_line_loop (color : Int) (x1 y1 dx dy sx sy : Int) :
    Nat → RenderBuffer → Int → Int → Int → RenderBuffer
  | 0, buf, _, _, _ => buf
  | fuel + 1, buf, x0, y0, err =>
    let buf1 := draw_pixel buf x0 y0 color
    if x0 = x1 ∧ y0 = y1 then buf1
    else
      let e2 := 2 * err
      let err1 := if e2 > -dy then err - dy else err
      let x0' := if e2 > -dy then x0 + sx else x0
      let err2 := if e2 < dx then err1 + dx else err1
      let y0' := if e2 < dx then y0 + sy else y0
      draw_line_loop color x1 y1 dx dy sx sy fuel buf1 x0' y0' err2

/-- `draw_line` (pin_canvas.c:862-884): Bresenham. -/
def draw_line (buf : RenderBuffer) (x0 y0 x1 y1 : Int) (color : Int) :
    RenderBuffer :=
  let dx := |x1 - x0|
  let dy := |y1 - y0|
  let sx : Int := if x0 < x1 then 1 else -1
  let sy : Int := if y0 < y1 then 1 else -1
  draw_line_loop color x1 y1 dx dy sx sy (dx.toNat + dy.toNat + 1) buf x0 y0
    (dx - dy)

/-- `draw_rect` (pin_canvas.c:886-904): row fill, or outline by two
horizontal and two vertical pixel runs.  The C loops run over `int`
coordinates from `position` for `size` iterations. -/
def draw_rect (buf : RenderBuffer) (rect : pin_canvas_rect_t) (color : Int)
    (filled : Bool) : RenderBuffer :=
  if filled then
    (List.range rect.height).foldl
      (fun b iy =>
        (List.range rect.width).foldl
          (fun b2 ix => draw_pixel b2 (rect.x + ix) (rect.y + iy) color) b)
      buf
  else
    let b1 :=
      (List.range rect.width).foldl
        (fun b ix =>
          draw_pixel (draw_pixel b (rect.x + ix) rect.y color)
            (rect.x + ix) (rect.y + rect.height - 1) color)
        buf
    (List.range rect.height).foldl
      (fun b iy =>
        draw_pixel (draw_pixel b rect.x (rect.y + iy) color)
          (rect.x + rect.width - 1) (rect.y + iy) color)
      b1

/-- One iteration of the midpoint circle loop (pin_canvas.c:906-935); the
loop runs while `y ≥ x`, `x` increases each pass, so `radius + 2`
iterations of fuel always suffice. -/
def draw_circle_loop (color : Int) (ccx ccy : Int) (filled : Bool) :
    Nat → RenderBuffer → Int → Int → Int → RenderBuffer
  | 0, buf, _, _, _ => buf
  | fuel + 1, buf, x, y, d =>
    if y ≥ x then
      let buf1 :=
        if filled then
          draw_line
            (draw_line
              (draw_line (draw_line buf (ccx - x) (ccy - y) (ccx + x) (ccy - y) color)
                (ccx - x) (ccy + y) (ccx + x) (ccy + y) color)
              (ccx - y) (ccy - x) (ccx + y) (ccy - x) color)
            (ccx - y) (ccy + x) (ccx + y) (ccy + x) color
        else
          draw_pixel
            (draw_pixel
              (draw_pixel
                (draw_pixel
                  (draw_pixel
                    (draw_pixel
                      (draw_pixel (draw_pixel buf (ccx + x) (ccy + y) color)
                        (ccx - x) (ccy + y) color)
                      (ccx + x) (ccy - y) color)
                    (ccx - x) (ccy - y) color)
                  (ccx + y) (ccy + x) color)
                (ccx - y) (ccy + x) color)
              (ccx + y) (ccy - x) color)
            (ccx - y) (ccy - x) color
      if d > 0 then
        draw_circle_loop color ccx ccy filled fuel buf1 (x + 1) (y - 1)
          (d + 4 * ((x + 1) - (y - 1)) + 10)
      else
        draw_circle_loop color ccx ccy filled fuel buf1 (x + 1) y
          (d + 4 * (x + 1) + 6)
    else buf

/-- `draw_circle` (pin_canvas.c:906-935). -/
def draw_circle (buf : RenderBuffer) (ccx ccy radius : Int) (color : Int)
    (filled : Bool) : RenderBuffer :=
  draw_circle_loop color ccx ccy filled (radius.toNat + 2) buf 0 radius
    (3 - 2 * radius)

/-- `render_text_element` (pin_canvas.c:756-792): placeholder filled
rectangle per character (at most 50), honoring alignment.  The struct
initializer stores the computed coordinates into `int16_t`/`uint16_t`
fields, hence the wraps. -/
def render_text_element (buf : RenderBuffer) (e : pin_canvas_element_t)
    (t : pin_canvas_text_props_t) : RenderBuffer :=
  let char_width : Int := c_idiv t.font_size 2
  let char_height : Int := t.font_size
  let text_width : Int := t.text.length * char_width
  let x_start : Int :=
    if t.align = 1 then e.bounds.x + c_idiv (e.bounds.width - text_width) 2
    else if t.align = 2 then e.bounds.x + e.bounds.width - text_width
    else e.bounds.x
  let y_start : Int := e.bounds.y
  (List.range (min t.text.length 50)).foldl
    (fun b i =>
      draw_rect b
        { x := int16_wrap (x_start + i * char_width)
          y := int16_wrap y_start
          width := uint16_wrap (char_width - 1)
          height := uint16_wrap char_height } t.color true)
    buf

/-- `render_image_element` (pin_canvas.c:794-817): placeholder outlined
rectangle plus the two diagonals, all `Blue` (the image props are unused
in this placeholder path). -/
def render_image_element (buf : RenderBuffer) (e : pin_canvas_element_t) :
    RenderBuffer :=
  let b1 := draw_rect buf e.bounds PIN_CANVAS_COLOR_BLUE false
  let b2 := draw_line b1 e.bounds.x e.bounds.y (e.bounds.x + e.bounds.width)
    (e.bounds.y + e.bounds.height) PIN_CANVAS_COLOR_BLUE
  draw_line b2 (e.bounds.x + e.bounds.width) e.bounds.y e.bounds.x
    (e.bounds.y + e.bounds.height) PIN_CANVAS_COLOR_BLUE

/-- `render_shape_element` (pin_canvas.c:819-854). -/
def render_shape_element (buf : RenderBuffer) (e : pin_canvas_element_t)
    (s : pin_canvas_shape_props_t) : RenderBuffer :=
  if e.type = PIN_CANVAS_ELEMENT_RECT then
    let b1 := draw_rect buf e.bounds s.fill_color s.filled
    if s.border_width > 0 then draw_rect b1 e.bounds s.border_color false
    else b1
  else if e.type = PIN_CANVAS_ELEMENT_LINE then
    draw_line buf e.bounds.x e.bounds.y (e.bounds.x + e.bounds.width)
      (e.bounds.y + e.bounds.height) s.fill_color
  else if e.type = PIN_CANVAS_ELEMENT_CIRCLE then
    let ccx : Int := e.bounds.x + (e.bounds.width / 2 : Nat)
    let ccy : Int := e.bounds.y + (e.bounds.height / 2 : Nat)
    let radius : Int :=
      if e.bounds.width < e.bounds.height then (e.bounds.width / 2 : Nat)
      else (e.bounds.height / 2 : Nat)
    draw_circle buf ccx ccy radius s.fill_color s.filled
  else buf

/-- The per-element dispatch of `pin_canvas_render`'s loop
(pin_canvas.c:420-432): `switch (type)` with cases Text, Image and
Rect/Line/Circle; any other `type` value draws nothing (no `default`).
The `props` union is read through the group matching the dispatch. -/
def render_element (buf : RenderBuffer) (e : pin_canvas_element_t) :
    RenderBuffer :=
  if e.type = PIN_CANVAS_ELEMENT_TEXT then
    match e.props with
    | .text t => render_text_element buf e t
    | _ => buf
  else if e.type = PIN_CANVAS_ELEMENT_IMAGE then render_image_element buf e
  else if e.type = PIN_CANVAS_ELEMENT_RECT ∨ e.type = PIN_CANVAS_ELEMENT_LINE
      ∨ e.type = PIN_CANVAS_ELEMENT_CIRCLE then
    match e.props with
    | .shape s => render_shape_element buf e s
    | _ => buf
  else buf

/-- One inner pass of the bubble sort in `pin_canvas_render`
(pin_canvas.c:403-412): compare and swap adjacent entries, for `bound`
adjacent pairs (the C inner loop `for j in [0, bound)` on
`sorted[j], sorted[j+1]`). -/
def bubble_pass : List pin_canvas_element_t → Nat → List pin_canvas_element_t
  | l, 0 => l
  | [], _ + 1 => []
  | [a], _ + 1 => [a]
  | a :: b :: t, k + 1 =>
    if b.z_index < a.z_index then b :: bubble_pass (a :: t) k
    else a :: bubble_pass (b :: t) k

/-- The outer loop of the bubble sort: passes with bounds `k, k-1, …, 1`
(the C outer loop `for i in [0, n-1)` with inner bound `n-i-1`). -/
def bubble_go : List pin_canvas_element_t → Nat → List pin_canvas_element_t
  | l, 0 => l
  | l, k + 1 => bubble_go (bubble_pass l (k + 1)) k

/-- The z-index bubble sort of `pin_canvas_render` (pin_canvas.c:397-412). -/
def sort_elements (l : List pin_canvas_element_t) :
    List pin_canvas_element_t :=
  bubble_go l (l.length - 1)

/-- `pin_canvas_render` (pin_canvas.c:381-439), applied to the fetched
canvas: `memset` the buffer to the background color, sort by `z_index`,
then render the visible elements in sorted order. -/
def pin_canvas_render (c : pin_canvas_t) : RenderBuffer :=
  let buf0 : RenderBuffer := fun _ => uint8_wrap c.background_color
  (sort_elements c.elements).foldl
    (fun b e => if e.visible then render_element b e else b) buf0

/-! ### The bubble sort of `pin_canvas_render` is a stable z-index sort -/

/-- Sort order of the render pass: ascending `z_index`. -/
def zle (x y : pin_canvas_element_t) : Prop := x.z_index ≤ y.z_index

theorem bubble_pass_perm (k : Nat) :
    ∀ l : List pin_canvas_element_t, (bubble_pass l k).Perm l := by
  induction k with
  | zero => intro l; cases l with
    | nil => rfl
    | cons a t => cases t <;> rfl
  | succ k ih =>
    intro l
    match l with
    | [] => rfl
    | [a] => rfl
    | a :: b :: t =>
      show (if b.z_index < a.z_index then b :: bubble_pass (a :: t) k
        else a :: bubble_pass (b :: t) k).Perm (a :: b :: t)
      by_cases hswap : b.z_index < a.z_index
      · rw [if_pos hswap]
        exact ((ih (a :: t)).cons b).trans (List.Perm.swap a b t)
      · rw [if_neg hswap]
        exact (ih (b :: t)).cons a

/-- A bubble pass never reorders elements of equal `z_index` (it swaps only
strictly-out-of-order neighbours). -/
theorem bubble_pass_filter (v : Nat) (k : Nat) :
    ∀ l : List pin_canvas_element_t,
      (bubble_pass l k).filter (fun e => decide (e.z_index = v)) =
        l.filter (fun e => decide (e.z_index = v)) := by
  induction k with
  | zero => intro l; cases l with
    | nil => rfl
    | cons a t => cases t <;> rfl
  | succ k ih =>
    intro l
    match l with
    | [] => rfl
    | [a] => rfl
    | a :: b :: t =>
      show (if b.z_index < a.z_index then b :: bubble_pass (a :: t) k
        else a :: bubble_pass (b :: t) k).filter _ = _
      by_cases hswap : b.z_index < a.z_index
      · rw [if_pos hswap]
        rw [List.filter_cons, ih (a :: t)]
        by_cases hb : b.z_index = v
        · have ha : ¬(a.z_index = v) := by omega
          simp [List.filter_cons, ha, hb]
        · simp [List.filter_cons, hb]
      · rw [if_neg hswap]
        simp only [List.filter_cons, ih (b :: t)]

/-- A full bubble pass carries a maximum to the end of the list. -/
theorem bubble_pass_full (t : List pin_canvas_element_t) :
    ∀ a : pin_canvas_element_t,
      ∃ l' m, bubble_pass (a :: t) t.length = l' ++ [m] ∧
        (∀ e ∈ a :: t, e.z_index ≤ m.z_index) ∧
        (l' ++ [m]).Perm (a :: t) := by
  induction t with
  | nil =>
    intro a
    exact ⟨[], a, rfl, by simp, by simp⟩
  | cons b t' ih =>
    intro a
    show ∃ l' m, (if b.z_index < a.z_index then b :: bubble_pass (a :: t') t'.length
      else a :: bubble_pass (b :: t') t'.length) = l' ++ [m] ∧ _ ∧ _
    by_cases hswap : b.z_index < a.z_index
    · obtain ⟨l', m, heq, hmax, hperm⟩ := ih a
      refine ⟨b :: l', m, ?_, ?_, ?_⟩
      · rw [if_pos hswap, heq]; rfl
      · intro e he
        rcases List.mem_cons.mp he with rfl | he'
        · exact hmax e (List.mem_cons_self _ _)
        · rcases List.mem_cons.mp he' with rfl | he''
          · exact le_trans (le_of_lt hswap) (hmax a (List.mem_cons_self _ _))
          · exact hmax e (List.mem_cons_of_mem _ he'')
      · show (b :: (l' ++ [m])).Perm (a :: b :: t')
        exact (hperm.cons b).trans (List.Perm.swap a b t')
    · obtain ⟨l', m, heq, hmax, hperm⟩ := ih b
      refine ⟨a :: l', m, ?_, ?_, ?_⟩
      · rw [if_neg hswap, heq]; rfl
      · intro e he
        rcases List.mem_cons.mp he with rfl | he'
        · exact le_trans (le_of_not_lt hswap) (hmax b (List.mem_cons_self _ _))
        · exact hmax e he'
      · exact hperm.cons a

theorem bubble_pass_zero (l : List pin_canvas_element_t) :
    bubble_pass l 0 = l := by
  cases l with
  | nil => rfl
  | cons a t => cases t <;> rfl

/-- A bubble pass whose bound stays inside `xs` does not look at `ys`. -/
theorem bubble_pass_append (k : Nat) :
    ∀ (xs ys : List pin_canvas_element_t), k + 1 ≤ xs.length →
      bubble_pass (xs ++ ys) k = bubble_pass xs k ++ ys := by
  induction k with
  | zero =>
    intro xs ys _
    rw [bubble_pass_zero, bubble_pass_zero]
  | succ k ih =>
    intro xs ys hlen
    match xs, hlen with
    | a :: b :: xs', hlen =>
      show (if b.z_index < a.z_index
          then b :: bubble_pass (a :: (xs' ++ ys)) k
          else a :: bubble_pass (b :: (xs' ++ ys)) k) =
        (if b.z_index < a.z_index then b :: bubble_pass (a :: xs') k
          else a :: bubble_pass (b :: xs') k) ++ ys
      have hlen' : k + 1 ≤ (a :: xs').length := by
        simp only [List.length_cons] at hlen ⊢
        omega
      clear hlen
      have hlen'' : k + 1 ≤ (b :: xs').length := hlen'
      by_cases hswap : b.z_index < a.z_index
      · rw [if_pos hswap, if_pos hswap,
          show a :: (xs' ++ ys) = (a :: xs') ++ ys from rfl, ih (a :: xs') ys hlen']
        rfl
      · rw [if_neg hswap, if_neg hswap,
          show b :: (xs' ++ ys) = (b :: xs') ++ ys from rfl, ih (b :: xs') ys hlen'']
        rfl

theorem bubble_go_perm (k : Nat) :
    ∀ l : List pin_canvas_element_t, (bubble_go l k).Perm l := by
  induction k with
  | zero => intro l; exact List.Perm.refl l
  | succ k ih =>
    intro l
    exact (ih (bubble_pass l (k + 1))).trans (bubble_pass_perm (k + 1) l)

theorem bubble_go_filter (v : Nat) (k : Nat) :
    ∀ l : List pin_canvas_element_t,
      (bubble_go l k).filter (fun e => decide (e.z_index = v)) =
        l.filter (fun e => decide (e.z_index = v)) := by
  induction k with
  | zero => intro l; rfl
  | succ k ih =>
    intro l
    exact (ih (bubble_pass l (k + 1))).trans (bubble_pass_filter v (k + 1) l)

/-- The bubble sort invariant: if `back` is sorted and dominates `front`,
running the outer loop with bound `front.length - 1` sorts the whole
list. -/
theorem bubble_go_sorted (b : Nat) :
    ∀ (front back : List pin_canvas_element_t),
      front.length = b + 1 →
      back.Pairwise zle →
      (∀ e ∈ front, ∀ e' ∈ back, e.z_index ≤ e'.z_index) →
      (bubble_go (front ++ back) b).Pairwise zle := by
  induction b with
  | zero =>
    intro front back hlen hback hfb
    match front, hlen with
    | [f], _ =>
      show ([f] ++ back).Pairwise zle
      simp only [List.singleton_append]
      exact List.Pairwise.cons (fun e' he' => hfb f (List.mem_singleton_self f) e' he')
        hback
  | succ b ih =>
    intro front back hlen hback hfb
    match front, hlen with
    | a :: t, hlen =>
      have hlent : t.length = b + 1 := by
        simp only [List.length_cons] at hlen
        omega
      show (bubble_go (bubble_pass ((a :: t) ++ back) (b + 1)) b).Pairwise zle
      have hpa : b + 1 + 1 ≤ (a :: t).length := by
        simp only [List.length_cons, hlent]
        omega
      rw [bubble_pass_append (b + 1) (a :: t) back hpa]
      obtain ⟨l', m, heq, hmax, hperm⟩ := bubble_pass_full t a
      rw [show b + 1 = t.length from hlent.symm, heq, List.append_assoc]
      have hlenl' : l'.length = b + 1 := by
        have := hperm.length_eq
        simp only [List.length_append, List.length_cons, List.length_nil] at this
        omega
      have hmem : ∀ e ∈ l', e ∈ a :: t := fun e he =>
        hperm.mem_iff.mp (List.mem_append_left _ he)
      have hmmem : m ∈ a :: t := hperm.mem_iff.mp (List.mem_append_right _ (List.mem_singleton_self m))
      refine ih l' (m :: back) hlenl' ?_ ?_
      · exact List.Pairwise.cons (fun e' he' => hfb m hmmem e' he') hback
      · intro e he e' he'
        rcases List.mem_cons.mp he' with rfl | he''
        · exact hmax e (hmem e he)
        · exact hfb e (hmem e he) e' he''

/-- `sort_elements` permutes, sorts by ascending `z_index`, and is stable
(elements of each fixed `z_index` keep their relative order). -/
theorem sort_elements_spec (l : List pin_canvas_element_t) :
    (sort_elements l).Perm l ∧ (sort_elements l).Pairwise zle ∧
      ∀ v, (sort_elements l).filter (fun e => decide (e.z_index = v)) =
        l.filter (fun e => decide (e.z_index = v)) := by
  refine ⟨bubble_go_perm _ l, ?_, fun v => bubble_go_filter v _ l⟩
  cases l with
  | nil => exact List.Pairwise.nil
  | cons a t =>
    have h := bubble_go_sorted t.length (a :: t) []
      (by simp) List.Pairwise.nil (by simp)
    simpa [sort_elements, List.append_nil] using h

/-! ### C2: render structure and the S2 scenario -/

/-- Rect A of scenario S2: `(0,0,10,10)`, `z=1`, filled Red. -/
def s2_rect_A : pin_canvas_element_t :=
  { id := "A".toList, type := PIN_CANVAS_ELEMENT_RECT
    bounds := { x := 0, y := 0, width := 10, height := 10 }
    z_index := 1, visible := true
    props := .shape { fill_color := PIN_CANVAS_COLOR_RED, border_color := 0
                      border_width := 0, filled := true } }

/-- Rect B of scenario S2: `(5,0,10,10)`, `z=2`, filled Blue. -/
def s2_rect_B : pin_canvas_element_t :=
  { id := "B".toList, type := PIN_CANVAS_ELEMENT_RECT
    bounds := { x := 5, y := 0, width := 10, height := 10 }
    z_index := 2, visible := true
    props := .shape { fill_color := PIN_CANVAS_COLOR_BLUE, border_color := 0
                      border_width := 0, filled := true } }

/-- The S2 canvas: white background, rects A and B. -/
def s2_canvas : pin_canvas_t :=
  { id := "s2".toList, name := "s2".toList
    background_color := PIN_CANVAS_COLOR_WHITE
    created_time := 0, modified_time := 0
    elements := [s2_rect_A, s2_rect_B] }

set_option maxRecDepth 200000 in
/-- C2: `pin_canvas_render` fills the whole buffer with the background
color and then draws exactly the visible elements, in ascending `z_index`
order produced by a stable sort (the bubble sort swaps only strictly
out-of-order neighbours, so elements of equal `z_index` keep their stored
relative order); invisible elements are skipped by the fold.  In scenario
S2 the rendered pixel `(7,5)` is Blue and `(2,5)` is Red. -/
theorem claim_C2_render (c : pin_canvas_t) :
    pin_canvas_render c =
      (sort_elements c.elements).foldl
        (fun b e => if e.visible then render_element b e else b)
        (fun _ => uint8_wrap c.background_color) ∧
    (sort_elements c.elements).Perm c.elements ∧
    (sort_elements c.elements).Pairwise zle ∧
    (∀ v, (sort_elements c.elements).filter (fun e => decide (e.z_index = v)) =
      c.elements.filter (fun e => decide (e.z_index = v))) ∧
    pin_canvas_render s2_canvas (5 * 600 + 7) = PIN_CANVAS_COLOR_BLUE ∧
    pin_canvas_render s2_canvas (5 * 600 + 2) = PIN_CANVAS_COLOR_RED := by
  obtain ⟨hperm, hsort, hfil⟩ := sort_elements_spec c.elements
  exact ⟨rfl, hperm, hsort, hfil, by decide, by decide⟩

/-! ### C3: `pin_canvas_display` (pin_canvas.c:441-464)

`pin_canvas_display` renders into the manager's **byte-per-pixel** render
buffer (`PIN_CANVAS_WIDTH * PIN_CANVAS_HEIGHT` bytes, see
`pin_canvas_init`) and passes that buffer to `fpc_a005_draw_bitmap`, which
interprets its input as **nibble-packed** (two pixels per byte).  It then
calls `fpc_a005_display(handle)`. -/

/-- The framebuffer state produced by `pin_canvas_display`: render the
canvas, then `fpc_a005_draw_bitmap(handle, 0, 0, PIN_CANVAS_WIDTH,
PIN_CANVAS_HEIGHT, render_buffer)`. -/
def pin_canvas_display_framebuffer (c : pin_canvas_t) (fb : Framebuffer) :
    Framebuffer :=
  fpc_a005_draw_bitmap fb 0 0 PIN_CANVAS_WIDTH PIN_CANVAS_HEIGHT
    (pin_canvas_render c)

/-- Modelled from the spec: `fpc_a005_display`, called at
pin_canvas.c:454, is declared and defined nowhere in the repository (the
driver offers only `fpc_a005_refresh`); the spec says `display(id)` ends
with `refresh(Full)`, which streams the framebuffer bytes after `Data
Start Transmission 1` (byte `i` of the stream is framebuffer byte `i`). -/
def fpc_a005_display_streamed_byte (fb : Framebuffer) (i : Nat) : Nat :=
  fpc_a005_refresh_streamed_byte fb i

/-- The C3 failing input: a stored canvas with Red background and no
elements. -/
def c3_canvas : pin_canvas_t :=
  { id := "c3".toList, name := "bg".toList
    background_color := PIN_CANVAS_COLOR_RED
    created_time := 0, modified_time := 0, elements := [] }

/-- C3: the bytes streamed by `display` do **not** encode the rendered
canvas.  Rendering the all-Red canvas gives render-buffer byte `0x02` at
every pixel, but `draw_bitmap` reads that buffer as nibble-packed, so the
high nibble of streamed byte 0 — pixel `(0,0)` on the wire — is `0x0`
(Black), not Red. -/
theorem claim_C3_display_mismatch :
    pin_canvas_render c3_canvas 0 = PIN_CANVAS_COLOR_RED ∧
    (fpc_a005_display_streamed_byte
        (pin_canvas_display_framebuffer c3_canvas fpc_a005_init_framebuffer)
        0 >>> 4) &&& 0x0F = FPC_A005_COLOR_BLACK ∧
    FPC_A005_COLOR_BLACK ≠ PIN_CANVAS_COLOR_RED := by
  refine ⟨by decide, ?_, by decide⟩
  have hfb' : pin_canvas_display_framebuffer c3_canvas fpc_a005_init_framebuffer =
      fpc_a005_draw_bitmap fpc_a005_init_framebuffer 0 0 600 448
        (pin_canvas_render c3_canvas) := rfl
  have hg : fpc_a005_get_pixel_from_buffer
      (pin_canvas_display_framebuffer c3_canvas fpc_a005_init_framebuffer) 0 0 =
      ((pin_canvas_display_framebuffer c3_canvas fpc_a005_init_framebuffer) 0 >>> 4)
        &&& 0x0F := get_pixel_origin _
  have h := get_pixel_draw_bitmap_full fpc_a005_init_framebuffer
    init_framebuffer_wf (pin_canvas_render c3_canvas) 0 0
  rw [if_pos (by norm_num)] at h
  have hcol : fpc_a005_bitmap_color (pin_canvas_render c3_canvas) 600 0 0 = 0 := by
    decide
  show (fpc_a005_display_streamed_byte
      (pin_canvas_display_framebuffer c3_canvas fpc_a005_init_framebuffer)
      0 >>> 4) &&& 0x0F = 0
  have hstream : fpc_a005_display_streamed_byte
      (pin_canvas_display_framebuffer c3_canvas fpc_a005_init_framebuffer) 0 =
      (pin_canvas_display_framebuffer c3_canvas fpc_a005_init_framebuffer) 0 := rfl
  rw [hstream, ← hg, hfb', h, hcol]


/-! ## Canvas JSON serialization (pin_canvas.c:492-754)

The JSON codec (cJSON) is an external collaborator; the model works on the
parsed JSON tree.  `cJSON_Print` is injective on trees, so "byte-identical
JSON modulo `modified_time`" is equality of trees after fixing
`modified_time`. -/

/-- A cJSON value (strings, numbers, booleans, arrays, objects; the
manifest and canvas schemas use no `null`). -/
inductive cJSON where
  | str (s : List Char)
  | num (n : Int)
  | bool (b : Bool)
  | arr (items : List cJSON)
  | obj (fields : List (List Char × cJSON))
  deriving Repr

/-- `cJSON_GetObjectItem`: first field with the given key. -/
def cJSON_GetObjectItem : cJSON → List Char → Option cJSON
  | .obj fields, key =>
    match fields.find? (fun f => f.1 == key) with
    | some f => some f.2
    | none => none
  | _, _ => none

/-- cJSON stores every parsed number's `valueint` saturated to the C `int`
range. -/
def cjson_valueint (n : Int) : Int :=
  if n > 2147483647 then 2147483647
  else if n < -2147483648 then -2147483648 else n

/-- `cJSON_IsString(item)` guard plus `item->valuestring`. -/
def json_get_str (j : cJSON) (key : List Char) : Option (List Char) :=
  match cJSON_GetObjectItem j key with
  | some (.str s) => some s
  | _ => none

/-- `cJSON_IsNumber(item)` guard plus `item->valueint`. -/
def json_get_num (j : cJSON) (key : List Char) : Option Int :=
  match cJSON_GetObjectItem j key with
  | some (.num n) => some (cjson_valueint n)
  | _ => none

/-- `cJSON_IsBool(item)` guard plus `cJSON_IsTrue(item)`. -/
def json_get_bool (j : cJSON) (key : List Char) : Option Bool :=
  match cJSON_GetObjectItem j key with
  | some (.bool b) => some b
  | _ => none

/-- Conversion of a C `int` value to `uint32_t` (reduction mod 2^32). -/
def uint32_wrap (v : Int) : Nat := (v % 4294967296).toNat

/-- The `props` object written by `canvas_to_json` for a Text element. -/
def text_props_to_json (t : pin_canvas_text_props_t) : cJSON :=
  .obj [("text".toList, .str t.text),
        ("font_size".toList, .num t.font_size),
        ("color".toList, .num t.color),
        ("align".toList, .num t.align),
        ("bold".toList, .bool t.bold),
        ("italic".toList, .bool t.italic)]

/-- The `props` object written by `canvas_to_json` for an Image element. -/
def image_props_to_json (i : pin_canvas_image_props_t) : cJSON :=
  .obj [("image_id".toList, .str i.image_id),
        ("format".toList, .num i.format),
        ("maintain_aspect_ratio".toList, .bool i.maintain_aspect_ratio),
        ("opacity".toList, .num i.opacity)]

/-- The `props` object written by `canvas_to_json` for a Shape element
(the `default:` arm of the `switch`). -/
def shape_props_to_json (sp : pin_canvas_shape_props_t) : cJSON :=
  .obj [("fill_color".toList, .num sp.fill_color),
        ("border_color".toList, .num sp.border_color),
        ("border_width".toList, .num sp.border_width),
        ("filled".toList, .bool sp.filled)]

/-- The `switch (elem->type)` of `canvas_to_json` (pin_canvas.c:575-596):
Text and Image write their groups; every other type writes the shape
group.  (The union is read through the group matching `type`; a mismatched
variant would be a union reinterpretation, which no code path produces.) -/
def props_to_json (e : pin_canvas_element_t) : cJSON :=
  if e.type = PIN_CANVAS_ELEMENT_TEXT then
    match e.props with
    | .text t => text_props_to_json t
    | _ => .obj []
  else if e.type = PIN_CANVAS_ELEMENT_IMAGE then
    match e.props with
    | .image i => image_props_to_json i
    | _ => .obj []
  else
    match e.props with
    | .shape sp => shape_props_to_json sp
    | _ => .obj []

/-- One element of the `elements` array written by `canvas_to_json`. -/
def element_to_json (e : pin_canvas_element_t) : cJSON :=
  .obj [("id".toList, .str e.id),
        ("type".toList, .num e.type),
        ("x".toList, .num e.bounds.x),
        ("y".toList, .num e.bounds.y),
        ("width".toList, .num e.bounds.width),
        ("height".toList, .num e.bounds.height),
        ("z_index".toList, .num e.z_index),
        ("visible".toList, .bool e.visible),
        ("props".toList, props_to_json e)]

/-- `canvas_to_json` (pin_canvas.c:549-603). -/
def canvas_to_json (c : pin_canvas_t) : cJSON :=
  .obj [("id".toList, .str c.id),
        ("name".toList, .str c.name),
        ("background_color".toList, .num c.background_color),
        ("created_time".toList, .num c.created_time),
        ("modified_time".toList, .num c.modified_time),
        ("elements".toList, .arr (c.elements.map element_to_json))]

/-- Text-props side of `json_to_canvas` (pin_canvas.c:686-711); missing or
mistyped keys leave the `memset`-zero defaults. -/
def parse_text_props (p : cJSON) : pin_canvas_text_props_t :=
  { text := match json_get_str p "text".toList with
      | some s => s.take 511
      | none => []
    font_size := (json_get_num p "font_size".toList).getD 0
    color := (json_get_num p "color".toList).getD 0
    align := (json_get_num p "align".toList).getD 0
    bold := (json_get_bool p "bold".toList).getD false
    italic := (json_get_bool p "italic".toList).getD false }

/-- Image-props side of `json_to_canvas` (pin_canvas.c:712-729). -/
def parse_image_props (p : cJSON) : pin_canvas_image_props_t :=
  { image_id := match json_get_str p "image_id".toList with
      | some s => s.take 31
      | none => []
    format := (json_get_num p "format".toList).getD 0
    maintain_aspect_ratio :=
      (json_get_bool p "maintain_aspect_ratio".toList).getD false
    opacity := match json_get_num p "opacity".toList with
      | some n => uint8_wrap n
      | none => 0 }

/-- Shape-props side of `json_to_canvas` (pin_canvas.c:730-747). -/
def parse_shape_props (p : cJSON) : pin_canvas_shape_props_t :=
  { fill_color := (json_get_num p "fill_color".toList).getD 0
    border_color := (json_get_num p "border_color".toList).getD 0
    border_width := match json_get_num p "border_width".toList with
      | some n => uint8_wrap n
      | none => 0
    filled := (json_get_bool p "filled".toList).getD false }

/-- The `switch (elem->type)` of `json_to_canvas`: which union group the
parsed `props` fields are stored into. -/
def parse_props (ty : Int) (p : cJSON) : pin_canvas_props_t :=
  if ty = PIN_CANVAS_ELEMENT_TEXT then .text (parse_text_props p)
  else if ty = PIN_CANVAS_ELEMENT_IMAGE then .image (parse_image_props p)
  else .shape (parse_shape_props p)

/-- One element parsed by `json_to_canvas` (pin_canvas.c:638-750).  A
missing or non-object `props` leaves the group's `memset`-zero defaults,
which coincides with parsing an empty object. -/
def json_to_canvas_element (element : cJSON) : pin_canvas_element_t :=
  { id := match json_get_str element "id".toList with
      | some s => s.take 31
      | none => []
    type := (json_get_num element "type".toList).getD 0
    bounds :=
      { x := match json_get_num element "x".toList with
          | some n => int16_wrap n
          | none => 0
        y := match json_get_num element "y".toList with
          | some n => int16_wrap n
          | none => 0
        width := match json_get_num element "width".toList with
          | some n => uint16_wrap n
          | none => 0
        height := match json_get_num element "height".toList with
          | some n => uint16_wrap n
          | none => 0 }
    z_index := match json_get_num element "z_index".toList with
      | some n => uint8_wrap n
      | none => 0
    visible := (json_get_bool element "visible".toList).getD false
    props :=
      parse_props ((json_get_num element "type".toList).getD 0)
        (match cJSON_GetObjectItem element "props".toList with
         | some (.obj fields) => .obj fields
         | _ => .obj []) }

/-- `json_to_canvas` (pin_canvas.c:605-754): parse the top-level fields,
then at most `PIN_CANVAS_MAX_ELEMENTS` (50) entries of `elements`, in
order; the remaining entries are silently dropped.  The function always
returns `ESP_OK`. -/
def json_to_canvas (json : cJSON) : pin_canvas_t :=
  { id := match json_get_str json "id".toList with
      | some s => s.take 31
      | none => []
    name := match json_get_str json "name".toList with
      | some s => s.take 63
      | none => []
    background_color := (json_get_num json "background_color".toList).getD 0
    created_time := match json_get_num json "created_time".toList with
      | some n => uint32_wrap n
      | none => 0
    modified_time := match json_get_num json "modified_time".toList with
      | some n => uint32_wrap n
      | none => 0
    elements := match cJSON_GetObjectItem json "elements".toList with
      | some (.arr items) =>
        (items.take PIN_CANVAS_MAX_ELEMENTS).map json_to_canvas_element
      | _ => [] }

/-- `pin_canvas_update` (pin_canvas.c:195-217): stores the canvas with
`modified_time` set to the current time. -/
def pin_canvas_update_model (c : pin_canvas_t) (now : Nat) : pin_canvas_t :=
  { c with modified_time := now }

/-- `pin_canvas_import_json` (pin_canvas.c:521-546): parse (external
codec), `json_to_canvas`, then `pin_canvas_update`. -/
def pin_canvas_import_json_model (json : cJSON) (now : Nat) : pin_canvas_t :=
  pin_canvas_update_model (json_to_canvas json) now

/-! ### C4: export/import round trip -/

/-- The value fits a C `int` (every value a C enum or `int` field can hold). -/
def int_range (v : Int) : Prop := -2147483648 ≤ v ∧ v ≤ 2147483647

/-- The in-memory well-formedness of a stored element: every field holds a
value representable in its C type, and the active union group is the one
selected by `type`. -/
def ElementWf (e : pin_canvas_element_t) : Prop :=
  e.id.length ≤ 31 ∧ int_range e.type ∧
  -32768 ≤ e.bounds.x ∧ e.bounds.x ≤ 32767 ∧
  -32768 ≤ e.bounds.y ∧ e.bounds.y ≤ 32767 ∧
  e.bounds.width < 65536 ∧ e.bounds.height < 65536 ∧
  e.z_index < 256 ∧
  (match e.props with
   | .text t => e.type = PIN_CANVAS_ELEMENT_TEXT ∧ t.text.length ≤ 511 ∧
       int_range t.font_size ∧ int_range t.color ∧ int_range t.align
   | .image i => e.type = PIN_CANVAS_ELEMENT_IMAGE ∧ i.image_id.length ≤ 31 ∧
       int_range i.format ∧ i.opacity < 256
   | .shape sp => e.type ≠ PIN_CANVAS_ELEMENT_TEXT ∧
       e.type ≠ PIN_CANVAS_ELEMENT_IMAGE ∧
       int_range sp.fill_color ∧ int_range sp.border_color ∧
       sp.border_width < 256)

/-- The in-memory well-formedness of a stored canvas (field capacities of
`pin_canvas_t`; the times stay below `INT_MAX` where cJSON's `valueint`
saturates). -/
def CanvasWf (c : pin_canvas_t) : Prop :=
  c.id.length ≤ 31 ∧ c.name.length ≤ 63 ∧ int_range c.background_color ∧
  c.created_time ≤ 2147483647 ∧ c.modified_time ≤ 2147483647 ∧
  c.elements.length ≤ PIN_CANVAS_MAX_ELEMENTS ∧
  ∀ e ∈ c.elements, ElementWf e

theorem cjson_valueint_eq (n : Int) (h1 : -2147483648 ≤ n)
    (h2 : n ≤ 2147483647) : cjson_valueint n = n := by
  unfold cjson_valueint
  rw [if_neg (by omega), if_neg (by omega)]

theorem int16_roundtrip (v : Int) (h1 : -32768 ≤ v) (h2 : v ≤ 32767) :
    int16_wrap (cjson_valueint v) = v := by
  rw [cjson_valueint_eq v (by omega) (by omega)]
  unfold int16_wrap
  omega

theorem uint16_roundtrip (w : Nat) (h : w < 65536) :
    uint16_wrap (cjson_valueint w) = w := by
  rw [cjson_valueint_eq w (by omega) (by omega)]
  unfold uint16_wrap
  omega

theorem uint8_roundtrip (w : Nat) (h : w < 256) :
    uint8_wrap (cjson_valueint w) = w := by
  rw [cjson_valueint_eq w (by omega) (by omega)]
  unfold uint8_wrap
  omega

theorem uint32_roundtrip (w : Nat) (h : w ≤ 2147483647) :
    uint32_wrap (cjson_valueint w) = w := by
  rw [cjson_valueint_eq w (by omega) (by omega)]
  unfold uint32_wrap
  omega

theorem parse_text_props_roundtrip (t : pin_canvas_text_props_t)
    (h1 : t.text.length ≤ 511) (h2 : int_range t.font_size)
    (h3 : int_range t.color) (h4 : int_range t.align) :
    parse_text_props (text_props_to_json t) = t := by
  obtain ⟨text, fs, col, al, b, it⟩ := t
  have h : parse_text_props (text_props_to_json ⟨text, fs, col, al, b, it⟩) =
      ⟨text.take 511, cjson_valueint fs, cjson_valueint col,
        cjson_valueint al, b, it⟩ := rfl
  rw [h, List.take_of_length_le h1, cjson_valueint_eq fs h2.1 h2.2,
    cjson_valueint_eq col h3.1 h3.2, cjson_valueint_eq al h4.1 h4.2]

theorem parse_image_props_roundtrip (i : pin_canvas_image_props_t)
    (h1 : i.image_id.length ≤ 31) (h2 : int_range i.format)
    (h3 : i.opacity < 256) :
    parse_image_props (image_props_to_json i) = i := by
  obtain ⟨iid, fmt, mar, op⟩ := i
  have h : parse_image_props (image_props_to_json ⟨iid, fmt, mar, op⟩) =
      ⟨iid.take 31, cjson_valueint fmt, mar, uint8_wrap (cjson_valueint op)⟩ :=
    rfl
  rw [h, List.take_of_length_le h1, cjson_valueint_eq fmt h2.1 h2.2,
    uint8_roundtrip op h3]

theorem parse_shape_props_roundtrip (sp : pin_canvas_shape_props_t)
    (h1 : int_range sp.fill_color) (h2 : int_range sp.border_color)
    (h3 : sp.border_width < 256) :
    parse_shape_props (shape_props_to_json sp) = sp := by
  obtain ⟨fc, bc, bw, f⟩ := sp
  have h : parse_shape_props (shape_props_to_json ⟨fc, bc, bw, f⟩) =
      ⟨cjson_valueint fc, cjson_valueint bc, uint8_wrap (cjson_valueint bw),
        f⟩ := rfl
  rw [h, cjson_valueint_eq fc h1.1 h1.2, cjson_valueint_eq bc h2.1 h2.2,
    uint8_roundtrip bw h3]

theorem json_to_canvas_element_roundtrip (e : pin_canvas_element_t)
    (he : ElementWf e) : json_to_canvas_element (element_to_json e) = e := by
  obtain ⟨id, ty, ⟨bx, bny, bw, bh⟩, z, vis, props⟩ := e
  obtain ⟨hid, hty, hbx1, hbx2, hby1, hby2, hbw, hbh, hz, hprops⟩ := he
  rcases props with t | i | sp
  · obtain ⟨hty0, ht1, ht2, ht3, ht4⟩ := hprops
    subst hty0
    have h : json_to_canvas_element
        (element_to_json ⟨id, PIN_CANVAS_ELEMENT_TEXT, ⟨bx, bny, bw, bh⟩, z,
          vis, .text t⟩) =
        ⟨id.take 31, cjson_valueint PIN_CANVAS_ELEMENT_TEXT,
          ⟨int16_wrap (cjson_valueint bx), int16_wrap (cjson_valueint bny),
            uint16_wrap (cjson_valueint bw), uint16_wrap (cjson_valueint bh)⟩,
          uint8_wrap (cjson_valueint z), vis,
          .text (parse_text_props (text_props_to_json t))⟩ := rfl
    rw [h, List.take_of_length_le hid, int16_roundtrip bx hbx1 hbx2,
      int16_roundtrip bny hby1 hby2, uint16_roundtrip bw hbw,
      uint16_roundtrip bh hbh, uint8_roundtrip z hz,
      parse_text_props_roundtrip t ht1 ht2 ht3 ht4]
    rfl
  · obtain ⟨hty1, hi1, hi2, hi3⟩ := hprops
    subst hty1
    have h : json_to_canvas_element
        (element_to_json ⟨id, PIN_CANVAS_ELEMENT_IMAGE, ⟨bx, bny, bw, bh⟩, z,
          vis, .image i⟩) =
        ⟨id.take 31, cjson_valueint PIN_CANVAS_ELEMENT_IMAGE,
          ⟨int16_wrap (cjson_valueint bx), int16_wrap (cjson_valueint bny),
            uint16_wrap (cjson_valueint bw), uint16_wrap (cjson_valueint bh)⟩,
          uint8_wrap (cjson_valueint z), vis,
          .image (parse_image_props (image_props_to_json i))⟩ := rfl
    rw [h, List.take_of_length_le hid, int16_roundtrip bx hbx1 hbx2,
      int16_roundtrip bny hby1 hby2, uint16_roundtrip bw hbw,
      uint16_roundtrip bh hbh, uint8_roundtrip z hz,
      parse_image_props_roundtrip i hi1 hi2 hi3]
    rfl
  · obtain ⟨hty0, hty1, hs1, hs2, hs3⟩ := hprops
    have h : json_to_canvas_element
        (element_to_json ⟨id, ty, ⟨bx, bny, bw, bh⟩, z, vis, .shape sp⟩) =
        ⟨id.take 31, cjson_valueint ty,
          ⟨int16_wrap (cjson_valueint bx), int16_wrap (cjson_valueint bny),
            uint16_wrap (cjson_valueint bw), uint16_wrap (cjson_valueint bh)⟩,
          uint8_wrap (cjson_valueint z), vis,
          parse_props (cjson_valueint ty)
            (shape_props_to_json sp)⟩ := by
      show json_to_canvas_element
          (.obj [("id".toList, .str id), ("type".toList, .num ty),
            ("x".toList, .num bx), ("y".toList, .num bny),
            ("width".toList, .num bw), ("height".toList, .num bh),
            ("z_index".toList, .num z), ("visible".toList, .bool vis),
            ("props".toList,
              props_to_json ⟨id, ty, ⟨bx, bny, bw, bh⟩, z, vis, .shape sp⟩)]) =
        _
      rw [show props_to_json ⟨id, ty, ⟨bx, bny, bw, bh⟩, z, vis, .shape sp⟩ =
        shape_props_to_json sp by
          unfold props_to_json
          rw [if_neg hty0, if_neg hty1]]
      rfl
    rw [h, List.take_of_length_le hid, int16_roundtrip bx hbx1 hbx2,
      int16_roundtrip bny hby1 hby2, uint16_roundtrip bw hbw,
      uint16_roundtrip bh hbh, uint8_roundtrip z hz,
      cjson_valueint_eq ty hty.1 hty.2]
    unfold parse_props
    rw [if_neg hty0, if_neg hty1,
      parse_shape_props_roundtrip sp hs1 hs2 hs3]

/-- Import of an exported canvas restores the canvas exactly (the stored
`modified_time` field included; `pin_canvas_update` then overwrites it). -/
theorem json_to_canvas_roundtrip (c : pin_canvas_t) (hc : CanvasWf c) :
    json_to_canvas (canvas_to_json c) = c := by
  obtain ⟨id, name, bg, ct, mt, elements⟩ := c
  obtain ⟨hid, hname, hbg, hct, hmt, hlen, helems⟩ := hc
  have h : json_to_canvas (canvas_to_json ⟨id, name, bg, ct, mt, elements⟩) =
      ⟨id.take 31, name.take 63, cjson_valueint bg,
        uint32_wrap (cjson_valueint ct), uint32_wrap (cjson_valueint mt),
        ((elements.map element_to_json).take PIN_CANVAS_MAX_ELEMENTS).map
          json_to_canvas_element⟩ := rfl
  rw [h, List.take_of_length_le hid, List.take_of_length_le hname,
    cjson_valueint_eq bg hbg.1 hbg.2, uint32_roundtrip ct hct,
    uint32_roundtrip mt hmt,
    List.take_of_length_le (by
      rw [List.length_map]
      exact hlen)]
  have hmap : (elements.map element_to_json).map json_to_canvas_element =
      elements := by
    rw [List.map_map]
    have hall : ∀ e ∈ elements,
        (json_to_canvas_element ∘ element_to_json) e = e :=
      fun e he => json_to_canvas_element_roundtrip e (helems e he)
    rw [List.map_congr_left hall]
    simp
  rw [hmap]

/-- C4: for a well-formed stored canvas, importing the exported JSON
restores the canvas exactly; importing through `pin_canvas_import_json`
stores it with only `modified_time` replaced by the import time; and
re-exporting yields the identical JSON tree except for the
`modified_time` field (hence byte-identical printed JSON modulo
`modified_time`). -/
theorem claim_C4_json_roundtrip (c : pin_canvas_t) (hc : CanvasWf c)
    (now : Nat) :
    json_to_canvas (canvas_to_json c) = c ∧
    pin_canvas_import_json_model (canvas_to_json c) now =
      { c with modified_time := now } ∧
    canvas_to_json (pin_canvas_import_json_model (canvas_to_json c) now) =
      canvas_to_json { c with modified_time := now } := by
  have h := json_to_canvas_roundtrip c hc
  refine ⟨h, ?_, ?_⟩
  · unfold pin_canvas_import_json_model pin_canvas_update_model
    rw [h]
  · unfold pin_canvas_import_json_model pin_canvas_update_model
    rw [h]

/-- The S3 canvas: one Text element `{text:"Hi", font_size:16, color:0,
align:1, bold:false, italic:false}` at bounds `(100,200,80,20)`, `z=3`,
visible. -/
def s3_canvas : pin_canvas_t :=
  { id := "s3".toList, name := "text".toList
    background_color := PIN_CANVAS_COLOR_WHITE
    created_time := 1700000000, modified_time := 1700000000
    elements := [
      { id := "t1".toList, type := PIN_CANVAS_ELEMENT_TEXT
        bounds := { x := 100, y := 200, width := 80, height := 20 }
        z_index := 3, visible := true
        props := .text { text := "Hi".toList, font_size := 16, color := 0
                         align := 1, bold := false, italic := false } }] }

/-- Witness for `claim_C4_json_roundtrip` on the S3 canvas. -/
theorem claim_C4_json_roundtrip_witness :
    CanvasWf s3_canvas ∧
      json_to_canvas (canvas_to_json s3_canvas) = s3_canvas := by
  have hwf : CanvasWf s3_canvas := by
    refine ⟨by decide, by decide, ⟨by decide, by decide⟩, by decide,
      by decide, by decide, ?_⟩
    intro e he
    simp only [s3_canvas, List.mem_singleton] at he
    subst he
    exact ⟨by decide, ⟨by decide, by decide⟩, by decide, by decide, by decide,
      by decide, by decide, by decide, by decide, by decide, by decide,
      ⟨by decide, by decide⟩, ⟨by decide, by decide⟩, ⟨by decide, by decide⟩⟩
  exact ⟨hwf, (claim_C4_json_roundtrip s3_canvas hwf 1700000001).1⟩

/-! ### C10: importing more than 50 elements silently truncates -/

/-- C10: when the `elements` array of an imported document holds more than
50 entries, `json_to_canvas` succeeds and keeps exactly the first 50
entries in their original order, and `import_json` stores that canvas
(with `modified_time` refreshed). -/
theorem claim_C10_import_truncates (doc : cJSON) (items : List cJSON)
    (now : Nat)
    (h : cJSON_GetObjectItem doc "elements".toList = some (.arr items))
    (hlen : 50 < items.length) :
    (json_to_canvas doc).elements =
      (items.take 50).map json_to_canvas_element ∧
    (json_to_canvas doc).elements.length = 50 ∧
    pin_canvas_import_json_model doc now =
      { json_to_canvas doc with modified_time := now } := by
  have he : (json_to_canvas doc).elements =
      (items.take 50).map json_to_canvas_element := by
    show (match cJSON_GetObjectItem doc ("elements".toList) with
      | some (.arr items) =>
        (items.take PIN_CANVAS_MAX_ELEMENTS).map json_to_canvas_element
      | _ => []) = (items.take 50).map json_to_canvas_element
    rw [h]
    rfl
  refine ⟨he, ?_, rfl⟩
  rw [he]
  rw [List.length_map, List.length_take]
  omega

/-- A 51-element import document. -/
def c10_doc : cJSON :=
  .obj [("elements".toList, .arr (List.replicate 51 (cJSON.obj [])))]

/-- Witness for `claim_C10_import_truncates` on a 51-element document. -/
theorem claim_C10_import_truncates_witness :
    cJSON_GetObjectItem c10_doc "elements".toList =
        some (.arr (List.replicate 51 (cJSON.obj []))) ∧
      50 < (List.replicate 51 (cJSON.obj [])).length ∧
      (json_to_canvas c10_doc).elements.length = 50 :=
  ⟨rfl, by simp,
    (claim_C10_import_truncates c10_doc (List.replicate 51 (cJSON.obj [])) 7
      rfl (by simp)).2.1⟩

/-! ## Canvas element operations (pin_canvas.c:219-310) -/

/-- The `esp_err_t` values returned by the canvas element operations. -/
inductive esp_err where
  | ok
  | invalid_arg
  | no_mem
  | invalid_state
  | not_found
  deriving Repr, DecidableEq

/-- `pin_canvas_add_element` (pin_canvas.c:219-247): `Full` (`NO_MEM`) at
50 elements, `Duplicate` (`INVALID_STATE`) on an existing element id; both
failures leave the stored canvas untouched (no `pin_canvas_update` runs);
otherwise append and store. -/
def pin_canvas_add_element (c : pin_canvas_t) (e : pin_canvas_element_t)
    (now : Nat) : esp_err × pin_canvas_t :=
  if c.elements.length ≥ PIN_CANVAS_MAX_ELEMENTS then (.no_mem, c)
  else if c.elements.any (fun x => x.id == e.id) then (.invalid_state, c)
  else (.ok, pin_canvas_update_model { c with elements := c.elements ++ [e] } now)

/-- `pin_canvas_update_element` (pin_canvas.c:249-276): find the element
by id, replace it **wholesale** with the caller's element (no check that
the new element's id stays unique), and store. -/
def pin_canvas_update_element (c : pin_canvas_t) (element_id : List Char)
    (e : pin_canvas_element_t) (now : Nat) : esp_err × pin_canvas_t :=
  match c.elements.findIdx? (fun x => x.id == element_id) with
  | none => (.not_found, c)
  | some idx =>
    (.ok, pin_canvas_update_model { c with elements := c.elements.set idx e } now)

/-- `pin_canvas_remove_element` (pin_canvas.c:278-310): find by id, shift
the suffix down, and store. -/
def pin_canvas_remove_element (c : pin_canvas_t) (element_id : List Char)
    (now : Nat) : esp_err × pin_canvas_t :=
  match c.elements.findIdx? (fun x => x.id == element_id) with
  | none => (.not_found, c)
  | some idx =>
    (.ok, pin_canvas_update_model { c with elements := c.elements.eraseIdx idx } now)

/-- A fresh canvas as `pin_canvas_create` builds it (element-free). -/
def c5_empty : pin_canvas_t :=
  { id := "c5".toList, name := "c5".toList
    background_color := PIN_CANVAS_COLOR_WHITE
    created_time := 1, modified_time := 1, elements := [] }

/-- Element `"a"`. -/
def c5_elem_a : pin_canvas_element_t :=
  { id := "a".toList, type := PIN_CANVAS_ELEMENT_RECT
    bounds := { x := 0, y := 0, width := 1, height := 1 }
    z_index := 0, visible := true
    props := .shape { fill_color := 0, border_color := 0, border_width := 0
                      filled := true } }

/-- Element `"b"`. -/
def c5_elem_b : pin_canvas_element_t :=
  { c5_elem_a with id := "b".toList }

/-- A second element with id `"b"` (different geometry). -/
def c5_elem_b2 : pin_canvas_element_t :=
  { c5_elem_b with bounds := { x := 5, y := 5, width := 2, height := 2 } }

/-- The canvas holding `"a"` then `"b"`, built through `add_element`. -/
def c5_canvas_ab : pin_canvas_t :=
  (pin_canvas_add_element
    (pin_canvas_add_element c5_empty c5_elem_a 1).2 c5_elem_b 2).2

/-- A canvas already holding 50 elements. -/
def c5_full_canvas : pin_canvas_t :=
  { c5_empty with elements := List.replicate 50 c5_elem_a }

/-- C5: `add_element` returns `Full` at 50 elements and `Duplicate` on an
id collision, leaving the stored canvas unchanged in both cases — but the
claimed consequence fails: `update_element` replaces an element without
re-checking id uniqueness, so the engine's operations can store a canvas
whose element ids collide (here: ids `["b","b"]` after updating element
`"a"` of an `["a","b"]` canvas with an element whose id is `"b"`). -/
theorem claim_C5_add_element (c : pin_canvas_t) (e : pin_canvas_element_t)
    (now : Nat) :
    (c.elements.length ≥ PIN_CANVAS_MAX_ELEMENTS →
      pin_canvas_add_element c e now = (.no_mem, c)) ∧
    (c.elements.length < PIN_CANVAS_MAX_ELEMENTS →
      c.elements.any (fun x => x.id == e.id) = true →
      pin_canvas_add_element c e now = (.invalid_state, c)) ∧
    (pin_canvas_update_element c5_canvas_ab "a".toList c5_elem_b2 3).1 =
      .ok ∧
    ((pin_canvas_update_element c5_canvas_ab "a".toList c5_elem_b2 3).2.elements.map
      (fun x => x.id)) = ["b".toList, "b".toList] := by
  refine ⟨?_, ?_, by decide, by decide⟩
  · intro hfull
    unfold pin_canvas_add_element
    rw [if_pos hfull]
  · intro hnotfull hdup
    unfold pin_canvas_add_element
    rw [if_neg (by omega), if_pos hdup]

/-- Witness: the `Full` and `Duplicate` branches fire on concrete
canvases. -/
theorem claim_C5_add_element_witness :
    pin_canvas_add_element c5_full_canvas c5_elem_b 9 =
        (.no_mem, c5_full_canvas) ∧
      pin_canvas_add_element c5_canvas_ab c5_elem_b2 9 =
        (.invalid_state, c5_canvas_ab) :=
  ⟨(claim_C5_add_element c5_full_canvas c5_elem_b 9).1 (by decide),
    (claim_C5_add_element c5_canvas_ab c5_elem_b2 9).2.1 (by decide)
      (by decide)⟩

/-! ## Plugin runtime (pin_plugin.c)

`PIN_PLUGIN_MAX_ERRORS = 5`.  One plugin's runtime record (the mutable
fields of `pin_plugin_t` plus its context stats that the worker loop and
the manager touch); the lifecycle callbacks' outcomes and the resource
check's verdict are inputs of each step. -/

def PIN_PLUGIN_MAX_ERRORS : Nat := 5

def PIN_PLUGIN_DEFAULT_MEMORY_LIMIT : Nat := 64 * 1024

/-- Plugin lifecycle states (`pin_plugin_state_t`). -/
inductive pin_plugin_state_t where
  | unloaded
  | loaded
  | initialized
  | running
  | suspended
  | error
  deriving Repr, DecidableEq

/-- The runtime record of one plugin: `state`, `enabled`, `running`,
`initialized`, `error_count` from `pin_plugin_t`; `scheduled` models
`plugin_task != NULL` (a live worker task); `has_update` records whether
the optional `update` callback is provided; the two counters are
`ctx->stats.update_count` / `ctx->stats.error_count`. -/
structure PluginModel where
  state : pin_plugin_state_t
  enabled : Bool
  running : Bool
  initialized : Bool
  error_count : Nat
  scheduled : Bool
  stats_update_count : Nat
  stats_error_count : Nat
  has_update : Bool
  deriving Repr, DecidableEq

/-- A freshly registered plugin (`pin_plugin_register`, pin_plugin.c:151-153):
state `Loaded`, no worker, zero counters. -/
def pin_plugin_registered (hasUpdate : Bool) : PluginModel :=
  { state := .loaded, enabled := false, running := false, initialized := false
    error_count := 0, scheduled := false, stats_update_count := 0
    stats_error_count := 0, has_update := hasUpdate }

/-- One iteration of `pin_plugin_task_wrapper`'s loop (pin_plugin.c:322-365),
with the resource check's and the `update` callback's outcomes as inputs.
If the task is not scheduled nothing runs; if `running` is false the loop
exits and the task deletes itself (`plugin_task = NULL`); a resource
violation suspends; a successful `update` resets `error_count` and counts
an update; a failed `update` counts an error and, at `PIN_PLUGIN_MAX_ERRORS`,
disables the plugin, enters `Error` and exits the loop. -/
def pin_plugin_worker_step (p : PluginModel) (resourcesOk updateOk : Bool) :
    PluginModel :=
  if p.scheduled = false then p
  else if p.running = false then { p with scheduled := false }
  else if resourcesOk = false then { p with state := .suspended }
  else if p.has_update then
    if updateOk then
      { p with error_count := 0
               stats_update_count := p.stats_update_count + 1 }
    else if p.error_count + 1 ≥ PIN_PLUGIN_MAX_ERRORS then
      { p with error_count := p.error_count + 1
               stats_error_count := p.stats_error_count + 1
               enabled := false, state := .error, scheduled := false }
    else
      { p with error_count := p.error_count + 1
               stats_error_count := p.stats_error_count + 1 }
  else p

/-- `pin_plugin_enable(name, true)` (pin_plugin.c:187-237): run `init` once
and `start` (their outcomes are inputs), then mark Running and create the
worker task.  `error_count` is **not** reset. -/
def pin_plugin_enable_model (p : PluginModel) (initOk startOk : Bool) :
    PluginModel :=
  if p.enabled then p
  else if p.initialized = false ∧ initOk = false then { p with state := .error }
  else
    let p1 := if p.initialized = false then
        { p with initialized := true, state := .initialized }
      else p
    if startOk = false then { p1 with state := .error }
    else { p1 with enabled := true, running := true, state := .running
                   scheduled := true }

/-- `pin_plugin_enable(name, false)` (pin_plugin.c:238-257): stop and
delete the worker. -/
def pin_plugin_disable_model (p : PluginModel) : PluginModel :=
  if p.enabled then
    { p with enabled := false, running := false, state := .loaded
             scheduled := false }
  else p

/-- Plugin states reachable through the runtime's operations. -/
inductive PluginReach : PluginModel → Prop where
  | registered (hasUpdate : Bool) : PluginReach (pin_plugin_registered hasUpdate)
  | worker {p} (h : PluginReach p) (resourcesOk updateOk : Bool) :
      PluginReach (pin_plugin_worker_step p resourcesOk updateOk)
  | enable {p} (h : PluginReach p) (initOk startOk : Bool) :
      PluginReach (pin_plugin_enable_model p initOk startOk)
  | disable {p} (h : PluginReach p) : PluginReach (pin_plugin_disable_model p)

/-- Plugin states reachable when an `Error` plugin is never explicitly
re-enabled (`enable` is only applied below the error threshold). -/
inductive PluginReachSafe : PluginModel → Prop where
  | registered (hasUpdate : Bool) :
      PluginReachSafe (pin_plugin_registered hasUpdate)
  | worker {p} (h : PluginReachSafe p) (resourcesOk updateOk : Bool) :
      PluginReachSafe (pin_plugin_worker_step p resourcesOk updateOk)
  | enable {p} (h : PluginReachSafe p)
      (hec : p.error_count < PIN_PLUGIN_MAX_ERRORS) (initOk startOk : Bool) :
      PluginReachSafe (pin_plugin_enable_model p initOk startOk)
  | disable {p} (h : PluginReachSafe p) :
      PluginReachSafe (pin_plugin_disable_model p)

/-- The plugin that has failed `PIN_PLUGIN_MAX_ERRORS` consecutive updates:
enable once, then five failing worker iterations. -/
def c6_error_state : PluginModel :=
  pin_plugin_worker_step
    (pin_plugin_worker_step
      (pin_plugin_worker_step
        (pin_plugin_worker_step
          (pin_plugin_worker_step
            (pin_plugin_enable_model (pin_plugin_registered true) true true)
            true false)
          true false)
        true false)
      true false)
    true false

/-- The state immediately after explicitly re-enabling the failed plugin. -/
def c6_reenabled_state : PluginModel :=
  pin_plugin_enable_model c6_error_state true true

/-- C6: the claimed invariant "`error_count ≥ 5` implies `state = Error`
and no worker scheduled in every reachable state" is refuted:
`pin_plugin_enable` does not reset `error_count`, so re-enabling the
failed plugin reaches a state with `error_count = 5`, `state = Running`
and a scheduled worker. -/
theorem claim_C6_counterexample :
    PluginReach c6_reenabled_state ∧
      c6_reenabled_state.error_count ≥ PIN_PLUGIN_MAX_ERRORS ∧
      c6_reenabled_state.state ≠ .error ∧
      c6_reenabled_state.scheduled = true := by
  refine ⟨?_, by decide, by decide, by decide⟩
  exact PluginReach.enable
    (PluginReach.worker
      (PluginReach.worker
        (PluginReach.worker
          (PluginReach.worker
            (PluginReach.worker
              (PluginReach.enable (PluginReach.registered true) true true)
              true false)
            true false)
          true false)
        true false)
      true false)
    true true

/-- The invariant the spec intends, plus the strengthening (`enabled =
false`) that makes it inductive. -/
def plugin_error_inv (p : PluginModel) : Prop :=
  p.error_count ≥ PIN_PLUGIN_MAX_ERRORS →
    p.state = .error ∧ p.scheduled = false ∧ p.enabled = false

theorem plugin_reach_safe_inv (p : PluginModel) (h : PluginReachSafe p) :
    plugin_error_inv p := by
  induction h with
  | registered hu =>
    intro h5
    exact absurd (show (0 : Nat) ≥ PIN_PLUGIN_MAX_ERRORS from h5) (by decide)
  | @worker p h rOk uOk ih =>
    intro h5
    unfold pin_plugin_worker_step at h5 ⊢
    by_cases hs : p.scheduled = false
    · rw [if_pos hs] at h5 ⊢
      exact ih h5
    · rw [if_neg hs] at h5 ⊢
      by_cases hr : p.running = false
      · rw [if_pos hr] at h5 ⊢
        exact ⟨(ih h5).1, rfl, (ih h5).2.2⟩
      · rw [if_neg hr] at h5 ⊢
        by_cases hres : rOk = false
        · rw [if_pos hres] at h5 ⊢
          exact absurd (ih h5).2.1 hs
        · rw [if_neg hres] at h5 ⊢
          by_cases hu : p.has_update = true
          · rw [if_pos hu] at h5 ⊢
            by_cases hup : uOk = true
            · rw [if_pos hup] at h5 ⊢
              exact absurd (show (0 : Nat) ≥ PIN_PLUGIN_MAX_ERRORS from h5)
                (by decide)
            · rw [if_neg hup] at h5 ⊢
              by_cases hth : p.error_count + 1 ≥ PIN_PLUGIN_MAX_ERRORS
              · rw [if_pos hth] at h5 ⊢
                exact ⟨rfl, rfl, rfl⟩
              · rw [if_neg hth] at h5 ⊢
                exact absurd
                  (show p.error_count + 1 ≥ PIN_PLUGIN_MAX_ERRORS from h5) hth
          · rw [if_neg hu] at h5 ⊢
            exact absurd (ih h5).2.1 hs
  | @enable p h hec iOk sOk ih =>
    intro h5
    unfold pin_plugin_enable_model at h5 ⊢
    by_cases he : p.enabled = true
    · rw [if_pos he] at h5 ⊢
      exact ih h5
    · rw [if_neg he] at h5 ⊢
      by_cases hinit : p.initialized = false ∧ iOk = false
      · rw [if_pos hinit] at h5 ⊢
        exact absurd (show p.error_count ≥ PIN_PLUGIN_MAX_ERRORS from h5)
          (by omega)
      · rw [if_neg hinit] at h5 ⊢
        by_cases hi2 : p.initialized = false
        · rw [if_pos hi2] at h5 ⊢
          by_cases hso : sOk = false
          · rw [if_pos hso] at h5 ⊢
            exact absurd (show p.error_count ≥ PIN_PLUGIN_MAX_ERRORS from h5)
              (by omega)
          · rw [if_neg hso] at h5 ⊢
            exact absurd (show p.error_count ≥ PIN_PLUGIN_MAX_ERRORS from h5)
              (by omega)
        · rw [if_neg hi2] at h5 ⊢
          by_cases hso : sOk = false
          · rw [if_pos hso] at h5 ⊢
            exact absurd (show p.error_count ≥ PIN_PLUGIN_MAX_ERRORS from h5)
              (by omega)
          · rw [if_neg hso] at h5 ⊢
            exact absurd (show p.error_count ≥ PIN_PLUGIN_MAX_ERRORS from h5)
              (by omega)
  | @disable p h ih =>
    intro h5
    unfold pin_plugin_disable_model at h5 ⊢
    by_cases he : p.enabled = true
    · rw [if_pos he] at h5 ⊢
      exact absurd he (by simp [(ih h5).2.2])
    · rw [if_neg he] at h5 ⊢
      exact ih h5

/-- C6 (amended): in the worker loop a successful `update` resets
`error_count` and increments `stats.update_count`; a failing `update`
increments `error_count` and `stats.error_count`; reaching
`PIN_PLUGIN_MAX_ERRORS` (5) disables the plugin, enters `Error` and the
worker exits unscheduled.  The invariant `error_count ≥ 5 → state = Error
∧ no worker scheduled` holds in every state reachable **without
re-enabling a failed plugin** (`pin_plugin_enable` does not reset
`error_count`, so immediately after an explicit re-enable the plugin runs
with `error_count` still at 5 — see the counterexample). -/
theorem claim_C6_worker_errors (p : PluginModel)
    (hs : p.scheduled = true) (hr : p.running = true)
    (hu : p.has_update = true) :
    pin_plugin_worker_step p true true =
      { p with error_count := 0
               stats_update_count := p.stats_update_count + 1 } ∧
    (p.error_count + 1 < PIN_PLUGIN_MAX_ERRORS →
      pin_plugin_worker_step p true false =
        { p with error_count := p.error_count + 1
                 stats_error_count := p.stats_error_count + 1 }) ∧
    (p.error_count + 1 ≥ PIN_PLUGIN_MAX_ERRORS →
      pin_plugin_worker_step p true false =
        { p with error_count := p.error_count + 1
                 stats_error_count := p.stats_error_count + 1
                 enabled := false, state := .error, scheduled := false }) ∧
    (∀ q : PluginModel, PluginReachSafe q →
      q.error_count ≥ PIN_PLUGIN_MAX_ERRORS →
      q.state = .error ∧ q.scheduled = false) := by
  refine ⟨?_, ?_, ?_, ?_⟩
  · unfold pin_plugin_worker_step
    rw [if_neg (by simp [hs]), if_neg (by simp [hr]), if_neg (by decide),
      if_pos hu, if_pos rfl]
  · intro hlt
    unfold pin_plugin_worker_step
    rw [if_neg (by simp [hs]), if_neg (by simp [hr]), if_neg (by decide),
      if_pos hu, if_neg (by decide), if_neg (by omega)]
  · intro hge
    unfold pin_plugin_worker_step
    rw [if_neg (by simp [hs]), if_neg (by simp [hr]), if_neg (by decide),
      if_pos hu, if_neg (by decide), if_pos hge]
  · intro q hq h5
    exact ⟨(plugin_reach_safe_inv q hq h5).1, (plugin_reach_safe_inv q hq h5).2.1⟩

/-- Witness for `claim_C6_worker_errors`: a freshly enabled plugin, and
the error-exit state reached after five failing updates. -/
theorem claim_C6_worker_errors_witness :
    (pin_plugin_enable_model (pin_plugin_registered true) true true).scheduled
        = true ∧
      (pin_plugin_worker_step
        (pin_plugin_enable_model (pin_plugin_registered true) true true)
        true true).stats_update_count = 1 ∧
      c6_error_state.error_count ≥ PIN_PLUGIN_MAX_ERRORS ∧
      c6_error_state.state = .error ∧ c6_error_state.scheduled = false := by
  refine ⟨by decide, ?_, by decide, ?_, ?_⟩
  · rw [(claim_C6_worker_errors
      (pin_plugin_enable_model (pin_plugin_registered true) true true)
      (by decide) (by decide) (by decide)).1]
    decide
  · exact ((claim_C6_worker_errors
      (pin_plugin_enable_model (pin_plugin_registered true) true true)
      (by decide) (by decide) (by decide)).2.2.2 c6_error_state
      (PluginReachSafe.worker
        (PluginReachSafe.worker
          (PluginReachSafe.worker
            (PluginReachSafe.worker
              (PluginReachSafe.worker
                (PluginReachSafe.enable (PluginReachSafe.registered true)
                  (by decide) true true)
                true false)
              true false)
            true false)
          true false)
        true false)
      (by decide)).1
  · exact ((claim_C6_worker_errors
      (pin_plugin_enable_model (pin_plugin_registered true) true true)
      (by decide) (by decide) (by decide)).2.2.2 c6_error_state
      (PluginReachSafe.worker
        (PluginReachSafe.worker
          (PluginReachSafe.worker
            (PluginReachSafe.worker
              (PluginReachSafe.worker
                (PluginReachSafe.enable (PluginReachSafe.registered true)
                  (by decide) true true)
                true false)
              true false)
            true false)
          true false)
        true false)
      (by decide)).2

/-! ## Plugin tracking allocator (pin_plugin.c:470-500)

`pin_plugin_malloc` refuses any allocation that would push
`stats.memory_used` above `config.memory_limit` (returning `NULL` with the
stats untouched) and otherwise adds `size` and updates the peak;
`pin_plugin_free` subtracts `size` (clamping at 0, which for a matching
free of a live allocation is an exact subtraction).  The sums are `size_t`
arithmetic; an allocation of ≥ 4 GiB cannot succeed on the target, which
the `mallocOk` input reflects. -/

/-- The context's memory counters (`ctx->stats`). -/
structure plugin_mem_stats where
  memory_used : Nat
  memory_peak : Nat
  deriving Repr, DecidableEq

/-- `pin_plugin_malloc` (pin_plugin.c:470-489); `mallocOk` is the system
allocator's verdict; the returned `Bool` is "non-NULL pointer". -/
def pin_plugin_malloc (stats : plugin_mem_stats) (memory_limit : Nat)
    (size : Nat) (mallocOk : Bool) : Bool × plugin_mem_stats :=
  if size = 0 then (false, stats)
  else if stats.memory_used + size > memory_limit then (false, stats)
  else if mallocOk = false then (false, stats)
  else (true,
    { memory_used := stats.memory_used + size
      memory_peak := max stats.memory_peak (stats.memory_used + size) })

/-- `pin_plugin_free` (pin_plugin.c:491-500); `ptrValid` is "`ptr` is
non-NULL". -/
def pin_plugin_free (stats : plugin_mem_stats) (size : Nat)
    (ptrValid : Bool) : plugin_mem_stats :=
  if ptrValid = true ∧ size > 0 then
    if stats.memory_used ≥ size then
      { stats with memory_used := stats.memory_used - size }
    else { stats with memory_used := 0 }
  else stats

/-- One tracking-allocator call. -/
inductive MemOp where
  | alloc (size : Nat) (mallocOk : Bool)
  | free (size : Nat) (ptrValid : Bool)
  deriving Repr, DecidableEq

/-- Run one call against the stats. -/
def apply_mem_op (memory_limit : Nat) (stats : plugin_mem_stats) :
    MemOp → plugin_mem_stats
  | .alloc size ok => (pin_plugin_malloc stats memory_limit size ok).2
  | .free size v => pin_plugin_free stats size v

/-- Run a call sequence from the zeroed context stats. -/
def run_mem_ops (memory_limit : Nat) (ops : List MemOp) : plugin_mem_stats :=
  ops.foldl (apply_mem_op memory_limit) { memory_used := 0, memory_peak := 0 }

theorem apply_mem_op_le (memory_limit : Nat) (stats : plugin_mem_stats)
    (op : MemOp) (h : stats.memory_used ≤ memory_limit) :
    (apply_mem_op memory_limit stats op).memory_used ≤ memory_limit := by
  cases op with
  | alloc size ok =>
    show (pin_plugin_malloc stats memory_limit size ok).2.memory_used ≤ _
    unfold pin_plugin_malloc
    by_cases h0 : size = 0
    · rw [if_pos h0]; exact h
    · rw [if_neg h0]
      by_cases h1 : stats.memory_used + size > memory_limit
      · rw [if_pos h1]; exact h
      · rw [if_neg h1]
        by_cases h2 : ok = false
        · rw [if_pos h2]; exact h
        · rw [if_neg h2]
          show stats.memory_used + size ≤ memory_limit
          omega
  | free size v =>
    show (pin_plugin_free stats size v).memory_used ≤ _
    unfold pin_plugin_free
    by_cases h0 : v = true ∧ size > 0
    · rw [if_pos h0]
      by_cases h1 : stats.memory_used ≥ size
      · rw [if_pos h1]
        show stats.memory_used - size ≤ memory_limit
        omega
      · rw [if_neg h1]
        show (0 : Nat) ≤ memory_limit
        omega
    · rw [if_neg h0]; exact h

theorem run_mem_ops_aux (memory_limit : Nat) :
    ∀ (ops : List MemOp) (stats : plugin_mem_stats),
      stats.memory_used ≤ memory_limit →
      (ops.foldl (apply_mem_op memory_limit) stats).memory_used ≤
        memory_limit := by
  intro ops
  induction ops with
  | nil => exact fun stats h => h
  | cons op rest ih =>
    intro stats h
    exact ih _ (apply_mem_op_le memory_limit stats op h)

/-- C7: an allocation that would exceed `memory_limit` returns `NULL` and
leaves the stats unchanged; a successful allocation adds exactly `size`
and raises the peak; a matching free of `size ≤ memory_used` subtracts
exactly `size`; and along every call sequence from the zeroed stats,
`memory_used` (a `Nat`, hence `≥ 0`) never exceeds `memory_limit`. -/
theorem claim_C7_memory_tracking (memory_limit : Nat) :
    (∀ (stats : plugin_mem_stats) (size : Nat) (ok : Bool),
      stats.memory_used + size > memory_limit →
      pin_plugin_malloc stats memory_limit size ok = (false, stats)) ∧
    (∀ (stats : plugin_mem_stats) (size : Nat), size ≠ 0 →
      stats.memory_used + size ≤ memory_limit →
      pin_plugin_malloc stats memory_limit size true =
        (true, { memory_used := stats.memory_used + size
                 memory_peak := max stats.memory_peak
                   (stats.memory_used + size) })) ∧
    (∀ (stats : plugin_mem_stats) (size : Nat), 0 < size →
      size ≤ stats.memory_used →
      pin_plugin_free stats size true =
        { stats with memory_used := stats.memory_used - size }) ∧
    (∀ ops : List MemOp,
      (run_mem_ops memory_limit ops).memory_used ≤ memory_limit) := by
  refine ⟨?_, ?_, ?_, ?_⟩
  · intro stats size ok hover
    unfold pin_plugin_malloc
    by_cases h0 : size = 0
    · rw [if_pos h0]
    · rw [if_neg h0, if_pos hover]
  · intro stats size h0 hfits
    unfold pin_plugin_malloc
    rw [if_neg h0, if_neg (by omega), if_neg (by decide)]
  · intro stats size h0 hle
    unfold pin_plugin_free
    rw [if_pos ⟨rfl, h0⟩, if_pos hle]
  · intro ops
    exact run_mem_ops_aux memory_limit ops _ (Nat.zero_le _)

/-- Witness for `claim_C7_memory_tracking` at `memory_limit = 1024`:
an oversize allocation fails unchanged, a fitting one adds its size, a
matching free subtracts it, and a concrete call sequence stays within the
limit. -/
theorem claim_C7_memory_tracking_witness :
    pin_plugin_malloc { memory_used := 0, memory_peak := 0 } 1024 2048 true =
        (false, { memory_used := 0, memory_peak := 0 }) ∧
      pin_plugin_malloc { memory_used := 0, memory_peak := 0 } 1024 512 true =
        (true, { memory_used := 512, memory_peak := 512 }) ∧
      pin_plugin_free { memory_used := 512, memory_peak := 512 } 512 true =
        { memory_used := 0, memory_peak := 512 } ∧
      (run_mem_ops 1024 [.alloc 512 true, .alloc 2048 true, .free 512 true,
        .alloc 1024 true]).memory_used ≤ 1024 := by
  refine ⟨?_, ?_, ?_, (claim_C7_memory_tracking 1024).2.2.2 _⟩
  · have h := (claim_C7_memory_tracking 1024).1
      { memory_used := 0, memory_peak := 0 } 2048 true (by decide)
    rw [h]
  · have h := (claim_C7_memory_tracking 1024).2.1
      { memory_used := 0, memory_peak := 0 } 512 (by decide) (by decide)
    rw [h]
    decide
  · have h := (claim_C7_memory_tracking 1024).2.2.1
      { memory_used := 512, memory_peak := 512 } 512 (by decide) (by decide)
    rw [h]
    decide

/-! ## OTA update engine (pin_ota.c)

`pin_ota.h` (the struct capacities `PIN_OTA_VERSION_MAX_LEN` etc.) is not
part of the repository sources, so the string capacities are abstract
parameters here; nothing below depends on their values beyond being
positive. -/

/-- `strstr(hay, needle) != NULL`: `needle` occurs contiguously in `hay`. -/
def strstr_from : List Char → List Char → Bool
  | [], needle => needle.isEmpty
  | h :: t, needle => needle.isPrefixOf (h :: t) || strstr_from t needle

/-- `pin_ota_info_t` (capacities abstracted; `size` is a `size_t`). -/
structure pin_ota_info_t where
  version : List Char
  description : List Char
  url : List Char
  size : Nat
  deriving Repr, DecidableEq

/-- The errors `parse_update_info` can report. -/
inductive ota_err where
  | ok
  | fail
  | invalid_arg
  | not_found
  deriving Repr, DecidableEq

/-- The asset filter of `parse_update_info` (pin_ota.c:365): the asset's
`name` is a string containing `pin_firmware.bin`. -/
def ota_asset_matches (a : cJSON) : Bool :=
  match cJSON_GetObjectItem a "name".toList with
  | some (.str nm) => strstr_from nm "pin_firmware.bin".toList
  | _ => false

/-- `parse_update_info` (pin_ota.c:330-386).  `info0` is the prior content
of the caller's `pin_ota_info_t` (the global `available_update`), which
the C code fills in place: fields whose JSON item is missing or mistyped
keep their prior value.  `tag_name` missing sets `ESP_ERR_INVALID_ARG`;
an empty final `url` overrides the error with `ESP_ERR_NOT_FOUND`. -/
def parse_update_info (VER_MAX DESC_MAX URL_MAX : Nat)
    (info0 : pin_ota_info_t) (json : cJSON) : ota_err × pin_ota_info_t :=
  let (err1, info1) :=
    match cJSON_GetObjectItem json "tag_name".toList with
    | some (.str s) => (ota_err.ok, { info0 with version := s.take (VER_MAX - 1) })
    | _ => (ota_err.invalid_arg, info0)
  let info2 :=
    match cJSON_GetObjectItem json "body".toList with
    | some (.str s) => { info1 with description := s.take (DESC_MAX - 1) }
    | _ => info1
  let info3 :=
    match cJSON_GetObjectItem json "assets".toList with
    | some (.arr assets) =>
      match assets.find? ota_asset_matches with
      | some asset =>
        let info3a :=
          match cJSON_GetObjectItem asset "browser_download_url".toList with
          | some (.str u) => { info2 with url := u.take (URL_MAX - 1) }
          | _ => info2
        match cJSON_GetObjectItem asset "size".toList with
        | some (.num n) => { info3a with size := uint32_wrap (cjson_valueint n) }
        | _ => info3a
      | none => info2
    | _ => info2
  if info3.url.length = 0 then (ota_err.not_found, info3) else (err1, info3)

/-- `pin_ota_check_update` (pin_ota.c:103-177), the part after a
successful HTTPS fetch of `manifest`: parse into `available_update`; on
parse success set `update_available := (strcmp(version, current) ≠ 0)`;
on failure leave the previous `update_available`. -/
def pin_ota_check_update_model (VER_MAX DESC_MAX URL_MAX : Nat)
    (current_version : List Char) (info0 : pin_ota_info_t)
    (prev_available : Bool) (manifest : cJSON) :
    ota_err × pin_ota_info_t × Bool :=
  match parse_update_info VER_MAX DESC_MAX URL_MAX info0 manifest with
  | (.ok, info) => (.ok, info, !(info.version == current_version))
  | (e, info) => (e, info, prev_available)

/-- A GitHub-release manifest with the fields `pin_ota_check_update`
reads. -/
def github_manifest (tag body : List Char) (assets : List cJSON) : cJSON :=
  .obj [("tag_name".toList, .str tag), ("body".toList, .str body),
        ("assets".toList, .arr assets)]

/-- A release asset with the fields `parse_update_info` reads. -/
def github_asset (name url : List Char) (sz : Int) : cJSON :=
  .obj [("name".toList, .str name),
        ("browser_download_url".toList, .str url),
        ("size".toList, .num sz)]

/-- `List.find?` skips a prefix of non-matching elements. -/
theorem find_skip_nonmatching {p : cJSON → Bool} (pre l : List cJSON)
    (h : ∀ a ∈ pre, p a = false) : (pre ++ l).find? p = l.find? p := by
  induction pre with
  | nil => rfl
  | cons a t ih =>
    simp only [List.cons_append, List.find?, h a (List.mem_cons_self a t)]
    exact ih fun x hx => h x (List.mem_cons_of_mem a hx)

/-- C8: on a GitHub release manifest, `pin_ota_check_update` fills
`available_update` from the first asset whose name contains
`pin_firmware.bin` (skipping earlier non-matching assets), and sets
`update_available` exactly when the manifest tag differs from the running
version as a plain string comparison — no semver ordering, for arbitrary
tag names. -/
theorem claim_C8_check_update
    (VER_MAX DESC_MAX URL_MAX : Nat)
    (current_version tag body name url : List Char)
    (sz : Int) (pre post : List cJSON)
    (info0 : pin_ota_info_t) (prev : Bool)
    (hpre : ∀ a ∈ pre, ota_asset_matches a = false)
    (hname : strstr_from name "pin_firmware.bin".toList = true)
    (htag : tag.length ≤ VER_MAX - 1)
    (hurl : url ≠ []) (hURL : 2 ≤ URL_MAX) :
    (pin_ota_check_update_model VER_MAX DESC_MAX URL_MAX current_version info0
        prev (github_manifest tag body (pre ++ github_asset name url sz :: post))).1
      = ota_err.ok ∧
    (pin_ota_check_update_model VER_MAX DESC_MAX URL_MAX current_version info0
        prev (github_manifest tag body (pre ++ github_asset name url sz :: post))).2.1
      = { version := tag, description := body.take (DESC_MAX - 1),
          url := url.take (URL_MAX - 1), size := uint32_wrap (cjson_valueint sz) } ∧
    ((pin_ota_check_update_model VER_MAX DESC_MAX URL_MAX current_version info0
        prev (github_manifest tag body (pre ++ github_asset name url sz :: post))).2.2
      = true ↔ tag ≠ current_version) := by
  have hmatch : ota_asset_matches (github_asset name url sz) = true := by
    have hn : cJSON_GetObjectItem (github_asset name url sz) "name".toList
        = some (.str name) := rfl
    simp only [ota_asset_matches, hn]
    exact hname
  have hfind : (pre ++ github_asset name url sz :: post).find? ota_asset_matches
      = some (github_asset name url sz) := by
    rw [find_skip_nonmatching pre _ hpre]
    simp only [List.find?, hmatch]
  have h1 : cJSON_GetObjectItem
      (github_manifest tag body (pre ++ github_asset name url sz :: post))
      "tag_name".toList = some (.str tag) := rfl
  have h2 : cJSON_GetObjectItem
      (github_manifest tag body (pre ++ github_asset name url sz :: post))
      "body".toList = some (.str body) := rfl
  have h3 : cJSON_GetObjectItem
      (github_manifest tag body (pre ++ github_asset name url sz :: post))
      "assets".toList
      = some (.arr (pre ++ github_asset name url sz :: post)) := rfl
  have hu : cJSON_GetObjectItem (github_asset name url sz)
      "browser_download_url".toList = some (.str url) := rfl
  have hs : cJSON_GetObjectItem (github_asset name url sz)
      "size".toList = some (.num sz) := rfl
  have hlen : ¬ (List.take (URL_MAX - 1) url).length = 0 := by
    rw [List.length_take]
    rcases url with _ | ⟨c, cs⟩
    · exact absurd rfl hurl
    · simp only [List.length_cons]
      omega
  have hparse : parse_update_info VER_MAX DESC_MAX URL_MAX info0
      (github_manifest tag body (pre ++ github_asset name url sz :: post))
      = (ota_err.ok,
         { version := tag, description := body.take (DESC_MAX - 1),
           url := url.take (URL_MAX - 1),
           size := uint32_wrap (cjson_valueint sz) }) := by
    simp only [parse_update_info, h1, h2, h3, hfind, hu, hs]
    rw [if_neg hlen, List.take_of_length_le htag]
  simp only [pin_ota_check_update_model, hparse]
  refine ⟨by trivial, by trivial, by simp⟩

/-- Witness for C8: a two-asset release (a source archive first, then the
firmware image) with tag `v1.1.0` against running version `v1.0.0`. -/
theorem claim_C8_check_update_witness :
    (pin_ota_check_update_model 32 256 256 "v1.0.0".toList ⟨[], [], [], 0⟩
        false (github_manifest "v1.1.0".toList "notes".toList
          ([github_asset "source.zip".toList "https://x/source.zip".toList 5] ++
           github_asset "pin_firmware.bin".toList
             "https://x/pin_firmware.bin".toList 1000 :: []))).1
      = ota_err.ok ∧
    (pin_ota_check_update_model 32 256 256 "v1.0.0".toList ⟨[], [], [], 0⟩
        false (github_manifest "v1.1.0".toList "notes".toList
          ([github_asset "source.zip".toList "https://x/source.zip".toList 5] ++
           github_asset "pin_firmware.bin".toList
             "https://x/pin_firmware.bin".toList 1000 :: []))).2.1
      = { version := "v1.1.0".toList,
          description := "notes".toList.take 255,
          url := "https://x/pin_firmware.bin".toList.take 255,
          size := uint32_wrap (cjson_valueint 1000) } ∧
    ((pin_ota_check_update_model 32 256 256 "v1.0.0".toList ⟨[], [], [], 0⟩
        false (github_manifest "v1.1.0".toList "notes".toList
          ([github_asset "source.zip".toList "https://x/source.zip".toList 5] ++
           github_asset "pin_firmware.bin".toList
             "https://x/pin_firmware.bin".toList 1000 :: []))).2.2
      = true ↔ "v1.1.0".toList ≠ "v1.0.0".toList) :=
  claim_C8_check_update 32 256 256 "v1.0.0".toList "v1.1.0".toList
    "notes".toList "pin_firmware.bin".toList
    "https://x/pin_firmware.bin".toList 1000
    [github_asset "source.zip".toList "https://x/source.zip".toList 5] []
    ⟨[], [], [], 0⟩ false (by decide) (by decide) (by decide) (by decide)
    (by decide)

/-! ## WiFi AP mode (pin_wifi.c) -/

/-- `CONFIG_PIN_WIFI_AP_SSID_PREFIX` (pin_config.h:18). -/
def CONFIG_PIN_WIFI_AP_SSID_PREFIX : List Char := "Pin-Device-".toList

/-- `CONFIG_PIN_WIFI_AP_PASSWORD` (pin_config.h:19). -/
def CONFIG_PIN_WIFI_AP_PASSWORD : List Char := "pin12345".toList

/-- `CONFIG_PIN_WIFI_AP_MAX_CONNECTIONS` (pin_config.h:20). -/
def CONFIG_PIN_WIFI_AP_MAX_CONNECTIONS : Nat := 4

/-- The two `wifi_auth_mode_t` values `pin_wifi_start_ap` can select. -/
inductive wifi_auth_mode where
  | open_auth
  | wpa_wpa2_psk
  deriving Repr, DecidableEq

/-- The fields of `wifi_config_t.ap` that `pin_wifi_start_ap` sets. -/
structure wifi_ap_config_t where
  ssid : List Char
  channel : Nat
  password : List Char
  max_connection : Nat
  authmode : wifi_auth_mode
  deriving Repr, DecidableEq

/-- `pin_wifi_start_ap` (pin_wifi.c:32-58): the AP configuration it hands
to `esp_wifi_set_config`.  The SSID is the compile-time literal
`CONFIG_PIN_WIFI_AP_SSID_PREFIX "0000"` — the function never reads the
MAC address — and the authmode falls back to open only when the
configured password is empty. -/
def pin_wifi_start_ap_config : wifi_ap_config_t :=
  let cfg : wifi_ap_config_t :=
    { ssid := CONFIG_PIN_WIFI_AP_SSID_PREFIX ++ "0000".toList,
      channel := 1,
      password := CONFIG_PIN_WIFI_AP_PASSWORD,
      max_connection := CONFIG_PIN_WIFI_AP_MAX_CONNECTIONS,
      authmode := .wpa_wpa2_psk }
  if CONFIG_PIN_WIFI_AP_PASSWORD.length = 0 then
    { cfg with authmode := .open_auth }
  else cfg

/-- Modelled from the spec: one `%X` hex digit. -/
def hex_digit (n : Nat) : Char :=
  if n < 10 then Char.ofNat (48 + n) else Char.ofNat (65 + n - 10)

/-- Modelled from the spec: a byte printed with `%02X`. -/
def hex_byte (b : Nat) : List Char :=
  [hex_digit (b / 16 % 16), hex_digit (b % 16)]

/-- Modelled from the spec: the AP SSID the specification (and
docs/architecture/wifi-configuration.md:304-307) requires —
`snprintf("Pin-Device-%02X%02X", mac[4], mac[5])`. -/
def spec_ap_ssid (mac4 mac5 : Nat) : List Char :=
  "Pin-Device-".toList ++ hex_byte mac4 ++ hex_byte mac5

/-- C9: the AP configuration built by `pin_wifi_start_ap` matches the
claim on channel (1) and max associations (4), but its SSID is the fixed
string `Pin-Device-0000` — not derived from the device MAC — and its
authentication is WPA/WPA2-PSK (password `pin12345`), not open.  For a
device whose last two MAC bytes are `0xAB 0xCD` the required SSID
`Pin-Device-ABCD` differs from the one the code configures. -/
theorem claim_C9_ap_config :
    pin_wifi_start_ap_config.channel = 1 ∧
    pin_wifi_start_ap_config.max_connection = 4 ∧
    pin_wifi_start_ap_config.ssid = "Pin-Device-0000".toList ∧
    pin_wifi_start_ap_config.authmode = wifi_auth_mode.wpa_wpa2_psk ∧
    spec_ap_ssid 171 205 = "Pin-Device-ABCD".toList ∧
    pin_wifi_start_ap_config.ssid ≠ spec_ap_ssid 171 205 ∧
    pin_wifi_start_ap_config.authmode ≠ wifi_auth_mode.open_auth := by
  decide

end Pin
